import Mathlib

/-!
Shallow embedding of the visa-evaluation scoring pipeline
(`backend/src/services/scoringService.ts`, the V2 scoring service bundled
with `backend/src/services/pdfService.ts`, `aiAnalysisService`, and
`backend/src/services/documentParsingService.ts`).

Modelling conventions:
* JavaScript `number` values are modelled as `ℚ` (all arithmetic appearing
  in the scoring code is exact on small rationals, so float rounding does
  not change any comparison or rounding result at the values involved).
* `Math.round` is modelled as `jsRound` (round half toward positive
  infinity, which is JavaScript's semantics).
* JavaScript exceptions become `Except String` values; the external
  language-model oracle becomes an explicit outcome parameter.
* Strings are Lean `String`s; the few regular expressions used by the
  source are implemented as faithful scanners (leftmost match, greedy
  quantifiers — shown equivalent for these patterns since no backtracking
  alternative can succeed).
-/

/-- JavaScript `Math.round`: round half toward +∞, i.e. `⌊x + 1/2⌋`. -/
def jsRound (q : ℚ) : ℤ := (q + 1/2).floor

/-- `Math.round` returning a JS number again (the form used in the code). -/
def jsRoundQ (q : ℚ) : ℚ := ((jsRound q : ℤ) : ℚ)

/-- ASCII lower-casing of a string, modelling `String.prototype.toLowerCase`
for the ASCII data handled by the scoring code. -/
def strLower (s : String) : String := String.mk (s.toList.map Char.toLower)

/-- ASCII upper-casing, modelling `String.prototype.toUpperCase`. -/
def strUpper (s : String) : String := String.mk (s.toList.map Char.toUpper)

/-- Is `pre` a prefix of `l`? -/
def isPrefixOfList : List Char → List Char → Bool
  | [], _ => true
  | _ :: _, [] => false
  | a :: as, b :: bs => a = b && isPrefixOfList as bs

/-- Substring containment on char lists (`String.prototype.includes`). -/
def containsSub (hay needle : List Char) : Bool :=
  match hay with
  | [] => isPrefixOfList needle []
  | _ :: t => isPrefixOfList needle hay || containsSub t needle

/-- `hay.includes(needle)` for strings. -/
def strContains (hay needle : String) : Bool :=
  containsSub hay.toList needle.toList

/-- The four score categories of an evaluation. -/
inductive Category where
  | strong_candidate
  | moderate_fit
  | consider_alternatives
  | not_recommended
  deriving DecidableEq, Repr

/-- Eligibility criteria of a visa type (`IEligibilityCriteria`). -/
structure EligibilityCriteria where
  minExperienceYears : ℕ
  minEducationLevel : String
  specializations : List String
  languageRequirement : String

/-- Scoring weights of a visa type (`IScoringWeights`). -/
structure ScoringWeights where
  experience : ℚ
  education : ℚ
  specialization : ℚ
  language : ℚ
  documentQuality : ℚ

/-- The parts of `IVisaType` that the scoring pipeline reads. -/
structure VisaType where
  visaName : String
  eligibilityCriteria : EligibilityCriteria
  scoringWeights : ScoringWeights
  maxScoreCap : ℚ

/-- `['a1','a2','b1','b2','c1','c2'].indexOf(x)` (`-1` when absent); the
same CEFR table appears in both scoring services. -/
def cefrIndex (s : String) : ℤ :=
  if s = "a1" then 0
  else if s = "a2" then 1
  else if s = "b1" then 2
  else if s = "b2" then 3
  else if s = "c1" then 4
  else if s = "c2" then 5
  else -1

/-- JavaScript `\s` restricted to the ASCII whitespace characters the
pipeline's data can contain. -/
def jsWhitespace (c : Char) : Bool :=
  c = ' ' || c = '\t' || c = '\n' || c = '\r' || c = '\x0b' || c = '\x0c'

/-- `[\s,]` — the separator class used by `calculateSpecializationScore`'s
keyword split. -/
def isSplitSep (c : Char) : Bool := jsWhitespace c || c = ','

/- JavaScript `String.prototype.split` on a one-or-more separator-class
run (`/[sep]+/`), keeping the empty fragments that arise at either end.
`splitGoTok` is inside a fragment, `splitGoSep` has just consumed a
separator. -/
mutual

def splitGoTok (p : Char → Bool) (l : List Char) (acc : List Char) :
    List (List Char) :=
  match l with
  | [] => [acc.reverse]
  | c :: rest =>
    if p c then acc.reverse :: splitGoSep p rest
    else splitGoTok p rest (c :: acc)

def splitGoSep (p : Char → Bool) (l : List Char) : List (List Char) :=
  match l with
  | [] => [[]]
  | c :: rest =>
    if p c then splitGoSep p rest
    else splitGoTok p rest [c]

end

/-- `s.split(/[\s,]+/)` as in `calculateSpecializationScore`. -/
def jsSplitSepComma (s : String) : List String :=
  (splitGoTok isSplitSep s.toList []).map (fun l => String.mk l)

namespace ScoringService

/-- Applicant profile (`UserProfile` in `scoringService.ts`).  `experience`
is a natural number: in the pipeline it is produced by `parseInt` on a run
of digits extracted from the summary. -/
structure UserProfile where
  experience : ℕ
  education : String
  specialization : String
  languageLevel : String
  documentCount : ℕ
  hasAllRequiredDocs : Bool

/-- The score-bearing part of `ScoringResult` in `scoringService.ts`. -/
structure Breakdown where
  experience : ℚ
  education : ℚ
  specialization : ℚ
  language : ℚ
  documentQuality : ℚ
  deriving Repr

structure ScoringResult where
  score : ℚ
  scoreBreakdown : Breakdown
  scoreCategory : Category
  deriving Repr

/-- `calculateExperienceScore` (V1, `scoringService.ts`). -/
def calculateExperienceScore (years minRequired : ℚ) : ℚ :=
  if years < minRequired then jsRoundQ (years / minRequired * 50)
  else if minRequired + 10 ≤ years then 100
  else jsRoundQ (50 + (years - minRequired) / 10 * 50)

/-- The education-level table of `calculateEducationScore`
(`levels[x] || 0`: unknown keys give 0). -/
def eduLevelScore (s : String) : ℚ :=
  if s = "high_school" then 40
  else if s = "bachelor" then 65
  else if s = "master" then 85
  else if s = "phd" then 100
  else 0

/-- `calculateEducationScore` (V1). -/
def calculateEducationScore (level minRequired : String) : ℚ :=
  let userScore := eduLevelScore level
  let requiredScore := eduLevelScore minRequired
  if userScore < requiredScore then jsRoundQ (userScore / requiredScore * 50)
  else userScore

/-- `calculateSpecializationScore` (V1).  `requiredSpecs` is `Option` to
model a missing/undefined list (`!requiredSpecs`). -/
def calculateSpecializationScore (userSpec : String)
    (requiredSpecs : Option (List String)) : ℚ :=
  match requiredSpecs with
  | none => 80
  | some specs =>
    if specs.length = 0 then 80
    else if specs.contains (strLower userSpec) then 100
    else
      let userKeywords := jsSplitSepComma (strLower userSpec)
      if specs.any (fun req => userKeywords.any
          (fun keyword => strContains (strLower req) keyword)) then 75
      else 50

/-- `calculateLanguageScore` (V1). -/
def calculateLanguageScore (proficiency requirement : String) : ℚ :=
  let userLevel := cefrIndex (strLower proficiency)
  let requiredLevel := cefrIndex (strLower requirement)
  if userLevel = -1 ∨ requiredLevel = -1 then 60
  else if userLevel < requiredLevel then
    let gap : ℚ := ((requiredLevel - userLevel : ℤ) : ℚ)
    max 30 (60 - gap * 10)
  else if userLevel = requiredLevel then 80
  else
    let bonus : ℚ := ((userLevel - requiredLevel : ℤ) : ℚ) * 5
    min 100 (80 + bonus)

/-- `calculateDocumentScore` (V1). -/
def calculateDocumentScore (count : ℕ) (hasAllRequired : Bool) : ℚ :=
  let score : ℚ := 60
  let score := if hasAllRequired then score + 25 else score - 20
  let score := if 5 ≤ count then score + 15
    else if 3 ≤ count then score + 10 else score
  max 0 (min 100 score)

/-- `determineScoreCategory` (V1). -/
def determineScoreCategory (score : ℚ) : Category :=
  if 75 ≤ score then .strong_candidate
  else if 60 ≤ score then .moderate_fit
  else if 40 ≤ score then .consider_alternatives
  else .not_recommended

/-- `calculateScore` (V1 main entry): per-dimension scores, weighted sum,
cap, round, categorize.  The insight/reasoning strings produced alongside
are not modelled (no claim mentions them). -/
def calculateScore (userProfile : UserProfile) (visaType : VisaType) :
    ScoringResult :=
  let breakdown : Breakdown :=
    { experience := calculateExperienceScore (userProfile.experience : ℚ)
        (visaType.eligibilityCriteria.minExperienceYears : ℚ)
      education := calculateEducationScore userProfile.education
        visaType.eligibilityCriteria.minEducationLevel
      specialization := calculateSpecializationScore userProfile.specialization
        (some visaType.eligibilityCriteria.specializations)
      language := calculateLanguageScore userProfile.languageLevel
        visaType.eligibilityCriteria.languageRequirement
      documentQuality := calculateDocumentScore userProfile.documentCount
        userProfile.hasAllRequiredDocs }
  let weights := visaType.scoringWeights
  let weightedScore : ℚ :=
    breakdown.experience / 100 * weights.experience
    + breakdown.education / 100 * weights.education
    + breakdown.specialization / 100 * weights.specialization
    + breakdown.language / 100 * weights.language
    + breakdown.documentQuality / 100 * weights.documentQuality
  let cappedScore := min weightedScore visaType.maxScoreCap
  let finalScore := jsRoundQ cappedScore
  { score := finalScore
    scoreBreakdown := breakdown
    scoreCategory := determineScoreCategory finalScore }

end ScoringService

namespace DocumentParsingService

/-- JavaScript `String.prototype.trim`. -/
def jsTrim (s : String) : String :=
  String.mk
    (((s.toList.dropWhile jsWhitespace).reverse.dropWhile jsWhitespace).reverse)

/-- `extractedText.split(/\s+/).filter(word => word.length > 0).length`. -/
def jsWordCount (s : String) : ℕ :=
  ((splitGoTok jsWhitespace s.toList []).filter (fun l => 0 < l.length)).length

/-- `path.extname(fileName)`: the suffix starting at the last dot, empty
when there is no dot or the name's only leading character is a dot. -/
def extname (fileName : String) : String :=
  let l := fileName.toList
  let r := l.reverse
  match r.findIdx? (fun c => c = '.') with
  | none => ""
  | some k =>
    if k + 1 = l.length then ""
    else String.mk ('.' :: (r.take k).reverse)

/-- `ParsedDocument` (`documentParsingService.ts`). -/
structure ParsedDocument where
  fileName : String
  documentType : String
  extractedText : String
  wordCount : ℕ
  parseSuccess : Bool
  error : Option String
  deriving Repr, DecidableEq

/-- One uploaded file together with the outcome of the format-specific
text extractor that `parseDocument` would invoke for it (`parsePDF`,
`parseDOCX`, `parseDOC` or the direct `.txt` read — all external library
calls whose success or thrown message is this `Except`). -/
structure FileInput where
  fileName : String
  documentType : String
  extraction : Except String String

/-- `parseDocument`: extension dispatch, per-file `try/catch`, word count.
A thrown extractor error leaves `extractedText` at `''` and records the
message; image extensions never consult the extractor. -/
def parseDocument (extraction : Except String String)
    (fileName documentType : String) : ParsedDocument :=
  let ext := strLower (extname fileName)
  let step : String × Bool × Option String :=
    if ext = ".pdf" ∨ ext = ".docx" ∨ ext = ".doc" ∨ ext = ".txt" then
      match extraction with
      | .ok t => (t, true, none)
      | .error m => ("", false, some m)
    else if ext = ".jpg" ∨ ext = ".jpeg" ∨ ext = ".png" then
      ("[Image file - OCR not implemented]", false,
        some "Image file requires OCR for text extraction")
    else
      ("", false, some ("Unsupported file type: " ++ ext))
  let extractedText := step.1
  let parseSuccess := step.2.1
  let errorMsg := step.2.2
  let wordCount := jsWordCount extractedText
  { fileName := fileName
    documentType := documentType
    extractedText := jsTrim extractedText
    wordCount := wordCount
    parseSuccess := parseSuccess
    error := errorMsg }

/-- `parseMultipleDocuments`: one `parseDocument` per file, in order. -/
def parseMultipleDocuments (files : List FileInput) : List ParsedDocument :=
  files.map (fun f => parseDocument f.extraction f.fileName f.documentType)

/-- `combineDocumentText`. -/
def combineDocumentText (parsedDocuments : List ParsedDocument) : String :=
  String.intercalate "\n\n"
    ((parsedDocuments.filter
        (fun d => d.parseSuccess && 0 < d.extractedText.length)).map
      (fun d => "--- " ++ strUpper d.documentType ++ ": " ++ d.fileName
        ++ " ---\n" ++ d.extractedText))

end DocumentParsingService

namespace AiAnalysisService

/-- One element of the oracle's `o1aCriteria` array
(`O1ACriteriaAnalysis` in `aiAnalysisService.ts`; the fields not read by
the scoring pipeline are omitted). -/
structure O1ACriteriaAnalysis where
  criteriaName : String
  evidenceQuality : String
  score : ℚ
  deriving Repr, DecidableEq

/-- The oracle's parsed JSON payload (`AIProfileAnalysis`).  Being an
untrusted external response, `o1aCriteria` is `Option`: `none` models a
missing or non-array field (the only shape the code validates). -/
structure AIProfileAnalysis where
  o1aCriteria : Option (List O1ACriteriaAnalysis)
  criteriaMet : ℚ
  yearsOfExperience : ℚ
  educationLevel : String
  fieldOfExpertise : String
  languageProficiency : String
  hasNationalInternationalRecognition : Bool
  hasOriginalContributions : Bool
  overallScore : ℚ
  approvalLikelihood : String
  documentQuality : String

/-- Outcome of one call to the external language-model service: either a
thrown error / timeout / empty body, or a parsed JSON payload. -/
inductive OracleOutcome where
  | failure (message : String)
  | response (analysis : AIProfileAnalysis)

/-- `analyzeO1AApplication` (`aiAnalysisService.ts`), as a function of the
call's outcome: a throw is re-thrown wrapped; a payload whose
`o1aCriteria` field is missing or not an array is rejected; any other
payload is returned as-is (note: the criteria list's length is NOT
checked). -/
def analyzeO1AApplication (outcome : OracleOutcome) :
    Except String AIProfileAnalysis :=
  match outcome with
  | .failure m => .error ("AI analysis failed: " ++ m)
  | .response a =>
    match a.o1aCriteria with
    | none =>
      .error "AI analysis failed: Invalid analysis structure returned from AI"
    | some _ => .ok a

end AiAnalysisService

namespace ScoringServiceV2

open DocumentParsingService AiAnalysisService

/-- Score breakdown of the V2 scoring service; the three O-1A-specific
entries are only set by the oracle-backed path. -/
structure Breakdown where
  experience : ℚ
  education : ℚ
  specialization : ℚ
  language : ℚ
  documentQuality : ℚ
  o1aCriteriaMet : Option ℚ
  nationalRecognition : Option ℚ
  originalContributions : Option ℚ
  deriving Repr, DecidableEq

/-- The score-bearing part of the V2 `ScoringResult`. -/
structure ScoringResult where
  score : ℚ
  scoreBreakdown : Breakdown
  scoreCategory : Category
  deriving Repr, DecidableEq

/-- `calculateExperienceFromAI` (V2 helper, also used by the basic
fallback). -/
def calculateExperienceFromAI (years minRequired : ℚ) : ℚ :=
  if minRequired + 5 ≤ years then 90
  else if minRequired + 3 ≤ years then 80
  else if minRequired ≤ years then 70
  else if minRequired - 1 ≤ years then 50
  else if minRequired - 2 ≤ years then 30
  else max 0 (years / minRequired * 40)

/-- The education table of `calculateEducationFromAI`
(`levels[x] || dflt`). -/
def eduLevelScoreAI (s : String) (dflt : ℚ) : ℚ :=
  if s = "high_school" then 30
  else if s = "bachelor" then 60
  else if s = "master" then 80
  else if s = "phd" then 100
  else dflt

/-- `calculateEducationFromAI` (V2). -/
def calculateEducationFromAI (level required : String) : ℚ :=
  let requiredScore := eduLevelScoreAI required 60
  let userScore := eduLevelScoreAI level 30
  if requiredScore ≤ userScore then userScore
  else userScore / requiredScore * 50

/-- `calculateSpecializationScore` (V2): case-insensitive exact match on
both sides, then two-way substring match. -/
def calculateSpecializationScore (field : String) (allowed : List String) :
    ℚ :=
  let fieldLower := strLower field
  if allowed.any (fun spec => fieldLower = strLower spec) then 100
  else if allowed.any (fun spec =>
      strContains fieldLower (strLower spec)
      || strContains (strLower spec) fieldLower) then 70
  else 40

/-- `calculateLanguageScore` (V2). -/
def calculateLanguageScore (level required : String) : ℚ :=
  let userIndex := cefrIndex (strLower level)
  let requiredIndex := cefrIndex (strLower required)
  if userIndex = -1 ∨ requiredIndex = -1 then 60
  else if requiredIndex ≤ userIndex then
    70 + ((userIndex - requiredIndex : ℤ) : ℚ) * 10
  else
    max 20 (60 - ((requiredIndex - userIndex : ℤ) : ℚ) * 15)

/-- `calculateDocumentQualityFromAI` (V2). -/
def calculateDocumentQualityFromAI (quality : String)
    (documents : List ParsedDocument) : ℚ :=
  let baseScore : ℚ :=
    if quality = "excellent" then 95
    else if quality = "good" then 75
    else if quality = "fair" then 50
    else if quality = "poor" then 25
    else 40
  let parsedCount := (documents.filter (fun d => d.parseSuccess)).length
  let baseScore := if 5 ≤ parsedCount then baseScore + 5 else baseScore
  let baseScore := if 8 ≤ parsedCount then baseScore + 5 else baseScore
  min 100 baseScore

/-- Digit run to the number `parseInt` yields on it. -/
def digitsToNat (ds : List Char) : ℕ :=
  ds.foldl (fun n c => 10 * n + (c.toNat - Char.toNat '0')) 0

/-- Attempt to match `(\d+)\+?\s*(years?|yrs?)` anchored at the head of
`l` (the input is already lower-cased).  The greedy digit and whitespace
runs are maximal; no shorter run can make the literal `year`/`yr`
alternatives succeed, so this equals the regex's backtracking search. -/
def matchYearAt (l : List Char) : Option ℕ :=
  let ds := l.takeWhile Char.isDigit
  if ds.isEmpty then none
  else
    let rest := l.drop ds.length
    let rest := match rest with
      | '+' :: t => t
      | _ => rest
    let rest := rest.dropWhile jsWhitespace
    if isPrefixOfList ['y', 'e', 'a', 'r'] rest
        || isPrefixOfList ['y', 'r'] rest then
      some (digitsToNat ds)
    else none

/-- Leftmost match of `(\d+)\+?\s*(years?|yrs?)` in the summary. -/
def findYearMatch : List Char → Option ℕ
  | [] => none
  | c :: rest =>
    match matchYearAt (c :: rest) with
    | some n => some n
    | none => findYearMatch rest

/-- Leftmost match of `([abc][12])` (input already lower-cased). -/
def findCefr : List Char → Option String
  | [] => none
  | [_] => none
  | a :: b :: rest =>
    if (a = 'a' || a = 'b' || a = 'c') && (b = '1' || b = '2') then
      some (String.mk [a, b])
    else findCefr (b :: rest)

/-- The `const breakdown = ...` of `calculateBasicScore`, together with
the lexical profile extraction that precedes it. -/
def basicBreakdown (professionalSummary : String)
    (parsedDocuments : List ParsedDocument) (visaType : VisaType) :
    Breakdown :=
  let summary := strLower professionalSummary
  let experience : ℚ := ((findYearMatch summary.toList).getD 0 : ℕ)
  let education : String :=
    if strContains summary "phd" then "phd"
    else if strContains summary "master" then "master"
    else if strContains summary "bachelor" then "bachelor"
    else "high_school"
  let specialization : String :=
    (visaType.eligibilityCriteria.specializations.find?
      (fun spec => strContains summary (strLower spec))).getD "general"
  let languageLevel : String := (findCefr summary.toList).getD "b2"
  { experience := calculateExperienceFromAI experience
      (visaType.eligibilityCriteria.minExperienceYears : ℚ)
    education := calculateEducationFromAI education
      visaType.eligibilityCriteria.minEducationLevel
    specialization := calculateSpecializationScore specialization
      visaType.eligibilityCriteria.specializations
    language := calculateLanguageScore languageLevel
      visaType.eligibilityCriteria.languageRequirement
    documentQuality :=
      if 3 ≤ (parsedDocuments.filter (fun d => d.parseSuccess)).length
      then 70 else 40
    o1aCriteriaMet := none
    nationalRecognition := none
    originalContributions := none }

/-- The `const finalScore = ...` weighted sum of `calculateBasicScore`. -/
def basicWeightedScore (professionalSummary : String)
    (parsedDocuments : List ParsedDocument) (visaType : VisaType) : ℚ :=
  let breakdown := basicBreakdown professionalSummary parsedDocuments visaType
  let weights := visaType.scoringWeights
  breakdown.experience * weights.experience / 100
  + breakdown.education * weights.education / 100
  + breakdown.specialization * weights.specialization / 100
  + breakdown.language * weights.language / 100
  + breakdown.documentQuality * weights.documentQuality / 100

/-- The `const cappedScore = visaType.maxScoreCap ? ... : ...` of
`calculateBasicScore`: JavaScript truthiness skips the cap when it is 0. -/
def basicCappedScore (professionalSummary : String)
    (parsedDocuments : List ParsedDocument) (visaType : VisaType) : ℚ :=
  let finalScore := basicWeightedScore professionalSummary parsedDocuments
    visaType
  if visaType.maxScoreCap ≠ 0 then min finalScore visaType.maxScoreCap
  else finalScore

/-- `calculateBasicScore` (V2 deterministic fallback).  The category is
derived from the UNROUNDED capped score; the reported score rounds it. -/
def calculateBasicScore (professionalSummary : String)
    (parsedDocuments : List ParsedDocument) (visaType : VisaType) :
    ScoringResult :=
  let cappedScore := basicCappedScore professionalSummary parsedDocuments
    visaType
  let category : Category :=
    if 75 ≤ cappedScore then .strong_candidate
    else if 60 ≤ cappedScore then .moderate_fit
    else if 40 ≤ cappedScore then .consider_alternatives
    else .not_recommended
  { score := jsRoundQ cappedScore
    scoreBreakdown := basicBreakdown professionalSummary parsedDocuments
      visaType
    scoreCategory := category }

/-- The category mapping of `calculateO1AScore`, a function of the
oracle's `approvalLikelihood` string. -/
def o1aCategory (approvalLikelihood : String) : Category :=
  if approvalLikelihood = "very_high" ∨ approvalLikelihood = "high" then
    .strong_candidate
  else if approvalLikelihood = "moderate" then .moderate_fit
  else if approvalLikelihood = "low" then .consider_alternatives
  else .not_recommended

/-- The non-throwing branch of `calculateO1AScore`: breakdown from the
oracle's facts, final score taken directly from the oracle's
`overallScore`, truthiness-guarded cap, category from
`approvalLikelihood`. -/
def o1aSuccessResult (a : AIProfileAnalysis)
    (parsedDocuments : List ParsedDocument) (visaType : VisaType) :
    ScoringResult :=
  let breakdown : Breakdown :=
    { experience := calculateExperienceFromAI a.yearsOfExperience
        (visaType.eligibilityCriteria.minExperienceYears : ℚ)
      education := calculateEducationFromAI a.educationLevel
        visaType.eligibilityCriteria.minEducationLevel
      specialization := calculateSpecializationScore a.fieldOfExpertise
        visaType.eligibilityCriteria.specializations
      language := calculateLanguageScore a.languageProficiency
        visaType.eligibilityCriteria.languageRequirement
      documentQuality := calculateDocumentQualityFromAI a.documentQuality
        parsedDocuments
      o1aCriteriaMet := some (a.criteriaMet / 8 * 100)
      nationalRecognition :=
        some (if a.hasNationalInternationalRecognition then 100 else 0)
      originalContributions :=
        some (if a.hasOriginalContributions then 100 else 0) }
  let finalScore := a.overallScore
  let cappedScore :=
    if visaType.maxScoreCap ≠ 0 then min finalScore visaType.maxScoreCap
    else finalScore
  { score := jsRoundQ cappedScore
    scoreBreakdown := breakdown
    scoreCategory := o1aCategory a.approvalLikelihood }

/-- `calculateO1AScore`: one oracle call; any thrown/invalid outcome is
caught and answered by `calculateBasicScore` (the `documentContents`
string only feeds the oracle prompt). -/
def calculateO1AScore (oracleOutcome : OracleOutcome)
    (professionalSummary _documentContents : String)
    (parsedDocuments : List ParsedDocument) (visaType : VisaType) :
    ScoringResult :=
  match analyzeO1AApplication oracleOutcome with
  | .error _ => calculateBasicScore professionalSummary parsedDocuments
      visaType
  | .ok a => o1aSuccessResult a parsedDocuments visaType

/-- `calculateScoreWithAI` (V2 entry): O-1 visa names go through the
oracle-backed path, everything else through the basic fallback.  The
oracle is modelled as a stream of call outcomes; the pipeline consumes
only outcome 0 (it calls the oracle at most once). -/
def calculateScoreWithAI (oracle : ℕ → OracleOutcome)
    (professionalSummary : String)
    (parsedDocuments : List ParsedDocument) (visaType : VisaType) :
    ScoringResult :=
  let documentContents := combineDocumentText parsedDocuments
  if strContains visaType.visaName "O-1A"
      || strContains visaType.visaName "O-1" then
    calculateO1AScore (oracle 0) professionalSummary documentContents
      parsedDocuments visaType
  else
    calculateBasicScore professionalSummary parsedDocuments visaType

end ScoringServiceV2

/-!  Concrete inputs used by witnesses and counterexamples. -/

/-- The example visa of the spec's end-to-end scenario (§8). -/
def sampleVisa : VisaType :=
  { visaName := "Skilled Worker Visa"
    eligibilityCriteria :=
      { minExperienceYears := 5, minEducationLevel := "bachelor"
        specializations := ["technology"], languageRequirement := "b1" }
    scoringWeights :=
      { experience := 30, education := 25, specialization := 20
        language := 15, documentQuality := 10 }
    maxScoreCap := 85 }

/-- An applicant profile matching the spec's end-to-end scenario. -/
def sampleProfile : ScoringService.UserProfile :=
  { experience := 5, education := "bachelor", specialization := "technology"
    languageLevel := "b2", documentCount := 0, hasAllRequiredDocs := false }

/-- A structurally valid oracle payload with a moderate overall score. -/
def sampleAnalysis : AiAnalysisService.AIProfileAnalysis :=
  { o1aCriteria := some []
    criteriaMet := 2
    yearsOfExperience := 6
    educationLevel := "master"
    fieldOfExpertise := "technology"
    languageProficiency := "c1"
    hasNationalInternationalRecognition := false
    hasOriginalContributions := false
    overallScore := 55
    approvalLikelihood := "moderate"
    documentQuality := "good" }

/-- A visa type whose `maxScoreCap` is 0 — a valid cap per the data model,
but falsy in JavaScript, so the V2 paths skip the capping step. -/
def visaCapZero : VisaType :=
  { visaName := "Test Visa"
    eligibilityCriteria :=
      { minExperienceYears := 5, minEducationLevel := "bachelor"
        specializations := [], languageRequirement := "b1" }
    scoringWeights :=
      { experience := 0, education := 0, specialization := 0
        language := 0, documentQuality := 100 }
    maxScoreCap := 0 }

/-- A visa whose weights (summing to 100) place the basic path's weighted
score at 74.6, between the rounded report (75) and the category cut. -/
def visaBoundary : VisaType :=
  { visaName := "Test Visa"
    eligibilityCriteria :=
      { minExperienceYears := 5, minEducationLevel := "bachelor"
        specializations := ["technology"], languageRequirement := "a1" }
    scoringWeights :=
      { experience := 29, education := 0, specialization := 5
        language := 66, documentQuality := 0 }
    maxScoreCap := 100 }

/-- An O-1A visa definition with uniform weights. -/
def visaO1A : VisaType :=
  { visaName := "O-1A Extraordinary Ability"
    eligibilityCriteria :=
      { minExperienceYears := 0, minEducationLevel := "high_school"
        specializations := ["technology"], languageRequirement := "a1" }
    scoringWeights :=
      { experience := 20, education := 20, specialization := 20
        language := 20, documentQuality := 20 }
    maxScoreCap := 100 }

/-- An oracle payload whose per-criterion breakdown weighs to a high score
while its `overallScore` is only 10. -/
def analysisOverallTen : AiAnalysisService.AIProfileAnalysis :=
  { o1aCriteria := some []
    criteriaMet := 0
    yearsOfExperience := 20
    educationLevel := "phd"
    fieldOfExpertise := "technology"
    languageProficiency := "c2"
    hasNationalInternationalRecognition := false
    hasOriginalContributions := false
    overallScore := 10
    approvalLikelihood := "low"
    documentQuality := "excellent" }

/-- An O-1A visa definition used when comparing against the fallback. -/
def visaO1AFallback : VisaType :=
  { visaName := "O-1A"
    eligibilityCriteria :=
      { minExperienceYears := 5, minEducationLevel := "bachelor"
        specializations := ["technology"], languageRequirement := "b1" }
    scoringWeights :=
      { experience := 20, education := 20, specialization := 20
        language := 20, documentQuality := 20 }
    maxScoreCap := 100 }

/-- An oracle payload whose criteria array is present but EMPTY: all eight
required criterion assessments are missing, yet the code's validation
accepts it. -/
def analysisNoCriteria : AiAnalysisService.AIProfileAnalysis :=
  { o1aCriteria := some []
    criteriaMet := 0
    yearsOfExperience := 0
    educationLevel := "high_school"
    fieldOfExpertise := "general"
    languageProficiency := "b2"
    hasNationalInternationalRecognition := false
    hasOriginalContributions := false
    overallScore := 97
    approvalLikelihood := "very_low"
    documentQuality := "poor" }

/-!  Helper lemmas about `jsRound` / `jsRoundQ`. -/

theorem jsRound_eq_floor (q : ℚ) : jsRound q = ⌊q + 1/2⌋ := rfl

theorem jsRoundQ_nonneg {q : ℚ} (h : 0 ≤ q) : 0 ≤ jsRoundQ q := by
  unfold jsRoundQ
  rw [jsRound_eq_floor]
  have := Int.le_floor.mpr (show ((0 : ℤ) : ℚ) ≤ q + 1/2 by push_cast; linarith)
  exact_mod_cast this

theorem jsRoundQ_le_intCast {q : ℚ} {z : ℤ} (h : q ≤ (z : ℚ)) :
    jsRoundQ q ≤ (z : ℚ) := by
  unfold jsRoundQ
  rw [jsRound_eq_floor]
  have h2 : ⌊q + 1/2⌋ < z + 1 :=
    Int.floor_lt.mpr (show q + 1/2 < ((z + 1 : ℤ) : ℚ) by push_cast; linarith)
  exact_mod_cast Int.lt_add_one_iff.mp h2

theorem jsRoundQ_intCast (z : ℤ) : jsRoundQ (z : ℚ) = (z : ℚ) := by
  unfold jsRoundQ
  rw [jsRound_eq_floor, add_comm, Int.floor_add_int]
  norm_num

theorem jsRoundQ_mono {q r : ℚ} (h : q ≤ r) : jsRoundQ q ≤ jsRoundQ r := by
  unfold jsRoundQ
  rw [jsRound_eq_floor, jsRound_eq_floor]
  exact_mod_cast Int.floor_le_floor (by linarith)

theorem jsRoundQ_min_intCast (q : ℚ) (z : ℤ) :
    jsRoundQ (min q (z : ℚ)) = min (jsRoundQ q) (z : ℚ) := by
  rcases le_total q (z : ℚ) with h | h
  · rw [min_eq_left h, min_eq_left]
    exact jsRoundQ_le_intCast h
  · rw [min_eq_right h, min_eq_right, jsRoundQ_intCast]
    rw [← jsRoundQ_intCast z]
    exact jsRoundQ_mono h

/-!  Range facts for the individual scoring dimensions. -/

theorem cefrIndex_cases (s : String) :
    cefrIndex s = -1 ∨ (0 ≤ cefrIndex s ∧ cefrIndex s ≤ 5) := by
  unfold cefrIndex
  split_ifs <;> norm_num

theorem eduLevelScore_bounds (s : String) :
    0 ≤ ScoringService.eduLevelScore s ∧ ScoringService.eduLevelScore s ≤ 100 := by
  unfold ScoringService.eduLevelScore
  split_ifs <;> norm_num

theorem v1_experience_bounds (y m : ℕ) :
    0 ≤ ScoringService.calculateExperienceScore (y : ℚ) (m : ℚ) ∧
      ScoringService.calculateExperienceScore (y : ℚ) (m : ℚ) ≤ 100 := by
  unfold ScoringService.calculateExperienceScore
  split_ifs with h1 h2
  · have hm : (0 : ℚ) < m := lt_of_le_of_lt (by positivity) h1
    have hq0 : (0 : ℚ) ≤ (y : ℚ) / m * 50 := by positivity
    have hq1 : (y : ℚ) / m * 50 ≤ 50 := by
      have : (y : ℚ) / m < 1 := (div_lt_one hm).mpr h1
      nlinarith
    have h50 : jsRoundQ ((y : ℚ) / m * 50) ≤ ((50 : ℤ) : ℚ) :=
      jsRoundQ_le_intCast (by push_cast; exact hq1)
    refine ⟨jsRoundQ_nonneg hq0, ?_⟩
    have : ((50 : ℤ) : ℚ) ≤ 100 := by norm_num
    linarith
  · norm_num
  · have hy : (m : ℚ) ≤ y := not_lt.mp h1
    have hy10 : (y : ℚ) < m + 10 := not_le.mp h2
    have hq0 : (0 : ℚ) ≤ 50 + ((y : ℚ) - m) / 10 * 50 := by
      have hd : (0 : ℚ) ≤ (y : ℚ) - m := by linarith
      have := mul_nonneg (div_nonneg hd (by norm_num : (0:ℚ) ≤ 10))
        (by norm_num : (0:ℚ) ≤ 50)
      linarith
    have hq1 : 50 + ((y : ℚ) - m) / 10 * 50 ≤ 100 := by nlinarith
    have h100 : jsRoundQ (50 + ((y : ℚ) - m) / 10 * 50) ≤ ((100 : ℤ) : ℚ) :=
      jsRoundQ_le_intCast (by push_cast; exact hq1)
    refine ⟨jsRoundQ_nonneg hq0, by push_cast at h100; linarith⟩

theorem v1_education_bounds (l r : String) :
    0 ≤ ScoringService.calculateEducationScore l r ∧
      ScoringService.calculateEducationScore l r ≤ 100 := by
  simp only [ScoringService.calculateEducationScore]
  obtain ⟨hu0, hu1⟩ := eduLevelScore_bounds l
  obtain ⟨hr0, _⟩ := eduLevelScore_bounds r
  split_ifs with h
  · have hrpos : (0 : ℚ) < ScoringService.eduLevelScore r := lt_of_le_of_lt hu0 h
    have hq0 : (0 : ℚ) ≤ ScoringService.eduLevelScore l /
        ScoringService.eduLevelScore r * 50 := by positivity
    have hq1 : ScoringService.eduLevelScore l /
        ScoringService.eduLevelScore r * 50 ≤ 100 := by
      have hlt : ScoringService.eduLevelScore l /
          ScoringService.eduLevelScore r < 1 := (div_lt_one hrpos).mpr h
      nlinarith
    have h100 : jsRoundQ (ScoringService.eduLevelScore l /
        ScoringService.eduLevelScore r * 50) ≤ ((100 : ℤ) : ℚ) :=
      jsRoundQ_le_intCast (by push_cast; exact hq1)
    refine ⟨jsRoundQ_nonneg hq0, by push_cast at h100; linarith⟩
  · exact ⟨hu0, hu1⟩

theorem v1_specialization_bounds (u : String) (specs : Option (List String)) :
    0 ≤ ScoringService.calculateSpecializationScore u specs ∧
      ScoringService.calculateSpecializationScore u specs ≤ 100 := by
  rcases specs with _ | specs
  · norm_num [ScoringService.calculateSpecializationScore]
  · simp only [ScoringService.calculateSpecializationScore]
    split_ifs <;> norm_num

theorem v1_language_bounds (p r : String) :
    0 ≤ ScoringService.calculateLanguageScore p r ∧
      ScoringService.calculateLanguageScore p r ≤ 100 := by
  simp only [ScoringService.calculateLanguageScore]
  split_ifs with h1 h2 h3
  · norm_num
  · rcases cefrIndex_cases (strLower p) with hu | ⟨hu0, _⟩
    · exact absurd (Or.inl hu) h1
    have hg : (1 : ℚ) ≤ ((cefrIndex (strLower r) - cefrIndex (strLower p) : ℤ) : ℚ) := by
      have : (1 : ℤ) ≤ cefrIndex (strLower r) - cefrIndex (strLower p) := by omega
      exact_mod_cast this
    constructor
    · exact le_trans (by norm_num : (0:ℚ) ≤ 30) (le_max_left _ _)
    · apply max_le (by norm_num)
      nlinarith
  · norm_num
  · have hgt : cefrIndex (strLower r) < cefrIndex (strLower p) :=
      lt_of_le_of_ne (not_lt.mp h2) (fun hq => h3 hq.symm)
    have hb : (0 : ℚ) ≤ ((cefrIndex (strLower p) - cefrIndex (strLower r) : ℤ) : ℚ) * 5 := by
      have h0 : (0 : ℤ) ≤ cefrIndex (strLower p) - cefrIndex (strLower r) := by omega
      positivity
    constructor
    · apply le_min (by norm_num)
      linarith
    · exact min_le_left _ _

theorem v1_document_bounds (c : ℕ) (b : Bool) :
    0 ≤ ScoringService.calculateDocumentScore c b ∧
      ScoringService.calculateDocumentScore c b ≤ 100 := by
  unfold ScoringService.calculateDocumentScore
  refine ⟨le_max_left _ _, max_le (by norm_num) (min_le_left _ _)⟩

theorem v2_experience_nonneg (y m : ℚ) :
    0 ≤ ScoringServiceV2.calculateExperienceFromAI y m := by
  unfold ScoringServiceV2.calculateExperienceFromAI
  split_ifs <;> norm_num

theorem eduLevelScoreAI_pos {d : ℚ} (hd : 0 < d) (s : String) :
    0 < ScoringServiceV2.eduLevelScoreAI s d := by
  unfold ScoringServiceV2.eduLevelScoreAI
  split_ifs <;> first | exact hd | norm_num

theorem v2_education_nonneg (l r : String) :
    0 ≤ ScoringServiceV2.calculateEducationFromAI l r := by
  simp only [ScoringServiceV2.calculateEducationFromAI]
  have hu := eduLevelScoreAI_pos (by norm_num : (0:ℚ) < 30) l
  have hr := eduLevelScoreAI_pos (by norm_num : (0:ℚ) < 60) r
  split_ifs with h
  · linarith
  · positivity

theorem v2_specialization_nonneg (f : String) (allowed : List String) :
    0 ≤ ScoringServiceV2.calculateSpecializationScore f allowed := by
  simp only [ScoringServiceV2.calculateSpecializationScore]
  split_ifs <;> norm_num

theorem v2_language_nonneg (p r : String) :
    0 ≤ ScoringServiceV2.calculateLanguageScore p r := by
  simp only [ScoringServiceV2.calculateLanguageScore]
  split_ifs with h1 h2
  · norm_num
  · rcases cefrIndex_cases (strLower r) with hr | ⟨hr0, _⟩
    · exact absurd (Or.inr hr) h1
    have : ((cefrIndex (strLower r) : ℤ) : ℚ) ≤ ((cefrIndex (strLower p) : ℤ) : ℚ) := by
      exact_mod_cast h2
    have h0 : (0 : ℚ) ≤ ((cefrIndex (strLower p) - cefrIndex (strLower r) : ℤ) : ℚ) := by
      push_cast
      linarith
    nlinarith
  · exact le_trans (by norm_num : (0:ℚ) ≤ 20) (le_max_left _ _)

theorem v2_documentQuality_nonneg (q : String)
    (docs : List DocumentParsingService.ParsedDocument) :
    0 ≤ ScoringServiceV2.calculateDocumentQualityFromAI q docs := by
  simp only [ScoringServiceV2.calculateDocumentQualityFromAI]
  apply le_min (by norm_num)
  split_ifs <;> norm_num

theorem basicBreakdown_fields_nonneg (s : String)
    (d : List DocumentParsingService.ParsedDocument) (v : VisaType) :
    0 ≤ (ScoringServiceV2.basicBreakdown s d v).experience ∧
    0 ≤ (ScoringServiceV2.basicBreakdown s d v).education ∧
    0 ≤ (ScoringServiceV2.basicBreakdown s d v).specialization ∧
    0 ≤ (ScoringServiceV2.basicBreakdown s d v).language ∧
    0 ≤ (ScoringServiceV2.basicBreakdown s d v).documentQuality := by
  simp only [ScoringServiceV2.basicBreakdown]
  refine ⟨v2_experience_nonneg _ _, v2_education_nonneg _ _,
    v2_specialization_nonneg _ _, v2_language_nonneg _ _, ?_⟩
  split_ifs <;> norm_num

theorem basicWeightedScore_nonneg (s : String)
    (d : List DocumentParsingService.ParsedDocument) (v : VisaType)
    (hw1 : 0 ≤ v.scoringWeights.experience)
    (hw2 : 0 ≤ v.scoringWeights.education)
    (hw3 : 0 ≤ v.scoringWeights.specialization)
    (hw4 : 0 ≤ v.scoringWeights.language)
    (hw5 : 0 ≤ v.scoringWeights.documentQuality) :
    0 ≤ ScoringServiceV2.basicWeightedScore s d v := by
  obtain ⟨h1, h2, h3, h4, h5⟩ := basicBreakdown_fields_nonneg s d v
  unfold ScoringServiceV2.basicWeightedScore
  have t1 := div_nonneg (mul_nonneg h1 hw1) (by norm_num : (0:ℚ) ≤ 100)
  have t2 := div_nonneg (mul_nonneg h2 hw2) (by norm_num : (0:ℚ) ≤ 100)
  have t3 := div_nonneg (mul_nonneg h3 hw3) (by norm_num : (0:ℚ) ≤ 100)
  have t4 := div_nonneg (mul_nonneg h4 hw4) (by norm_num : (0:ℚ) ≤ 100)
  have t5 := div_nonneg (mul_nonneg h5 hw5) (by norm_num : (0:ℚ) ≤ 100)
  linarith

theorem basicScore_in_range (s : String)
    (d : List DocumentParsingService.ParsedDocument) (v : VisaType) (n : ℕ)
    (hcap : v.maxScoreCap = (n : ℚ)) (hne : v.maxScoreCap ≠ 0)
    (hw1 : 0 ≤ v.scoringWeights.experience)
    (hw2 : 0 ≤ v.scoringWeights.education)
    (hw3 : 0 ≤ v.scoringWeights.specialization)
    (hw4 : 0 ≤ v.scoringWeights.language)
    (hw5 : 0 ≤ v.scoringWeights.documentQuality) :
    0 ≤ (ScoringServiceV2.calculateBasicScore s d v).score ∧
      (ScoringServiceV2.calculateBasicScore s d v).score ≤ v.maxScoreCap := by
  have hws := basicWeightedScore_nonneg s d v hw1 hw2 hw3 hw4 hw5
  have hcap0 : (0 : ℚ) ≤ v.maxScoreCap := by rw [hcap]; positivity
  simp only [ScoringServiceV2.calculateBasicScore,
    ScoringServiceV2.basicCappedScore, if_pos hne]
  constructor
  · exact jsRoundQ_nonneg (le_min hws hcap0)
  · rw [hcap]
    have hle : min (ScoringServiceV2.basicWeightedScore s d v) ((n : ℕ) : ℚ) ≤
        ((n : ℤ) : ℚ) :=
      le_trans (min_le_right _ _) (by push_cast; exact le_refl _)
    exact le_trans (jsRoundQ_le_intCast hle) (by push_cast; exact le_refl _)

theorem v1Score_in_range (profile : ScoringService.UserProfile)
    (v : VisaType) (n : ℕ) (hcap : v.maxScoreCap = (n : ℚ))
    (hw1 : 0 ≤ v.scoringWeights.experience)
    (hw2 : 0 ≤ v.scoringWeights.education)
    (hw3 : 0 ≤ v.scoringWeights.specialization)
    (hw4 : 0 ≤ v.scoringWeights.language)
    (hw5 : 0 ≤ v.scoringWeights.documentQuality) :
    0 ≤ (ScoringService.calculateScore profile v).score ∧
      (ScoringService.calculateScore profile v).score ≤ v.maxScoreCap := by
  obtain ⟨h1, _⟩ := v1_experience_bounds profile.experience
    v.eligibilityCriteria.minExperienceYears
  obtain ⟨h2, _⟩ := v1_education_bounds profile.education
    v.eligibilityCriteria.minEducationLevel
  obtain ⟨h3, _⟩ := v1_specialization_bounds profile.specialization
    (some v.eligibilityCriteria.specializations)
  obtain ⟨h4, _⟩ := v1_language_bounds profile.languageLevel
    v.eligibilityCriteria.languageRequirement
  obtain ⟨h5, _⟩ := v1_document_bounds profile.documentCount
    profile.hasAllRequiredDocs
  have t1 := mul_nonneg (div_nonneg h1 (by norm_num : (0:ℚ) ≤ 100)) hw1
  have t2 := mul_nonneg (div_nonneg h2 (by norm_num : (0:ℚ) ≤ 100)) hw2
  have t3 := mul_nonneg (div_nonneg h3 (by norm_num : (0:ℚ) ≤ 100)) hw3
  have t4 := mul_nonneg (div_nonneg h4 (by norm_num : (0:ℚ) ≤ 100)) hw4
  have t5 := mul_nonneg (div_nonneg h5 (by norm_num : (0:ℚ) ≤ 100)) hw5
  have hcap0 : (0 : ℚ) ≤ v.maxScoreCap := by rw [hcap]; positivity
  simp only [ScoringService.calculateScore]
  constructor
  · exact jsRoundQ_nonneg (le_min (by linarith) hcap0)
  · rw [hcap]
    apply le_trans (jsRoundQ_le_intCast
      (le_trans (min_le_right _ _) (by push_cast; exact le_refl _)))
    push_cast
    exact le_refl _

theorem o1aScore_in_range (oc : AiAnalysisService.OracleOutcome)
    (s dc : String) (d : List DocumentParsingService.ParsedDocument)
    (v : VisaType) (n : ℕ)
    (hcap : v.maxScoreCap = (n : ℚ)) (hne : v.maxScoreCap ≠ 0)
    (hov : ∀ b, oc = AiAnalysisService.OracleOutcome.response b →
      0 ≤ b.overallScore)
    (hw1 : 0 ≤ v.scoringWeights.experience)
    (hw2 : 0 ≤ v.scoringWeights.education)
    (hw3 : 0 ≤ v.scoringWeights.specialization)
    (hw4 : 0 ≤ v.scoringWeights.language)
    (hw5 : 0 ≤ v.scoringWeights.documentQuality) :
    0 ≤ (ScoringServiceV2.calculateO1AScore oc s dc d v).score ∧
      (ScoringServiceV2.calculateO1AScore oc s dc d v).score ≤ v.maxScoreCap := by
  have hcap0 : (0 : ℚ) ≤ v.maxScoreCap := by rw [hcap]; positivity
  rcases oc with m | a
  · exact basicScore_in_range s d v n hcap hne hw1 hw2 hw3 hw4 hw5
  · have hov' : 0 ≤ a.overallScore := hov a rfl
    rcases ho : a.o1aCriteria with _ | cs
    · have : ScoringServiceV2.calculateO1AScore
          (AiAnalysisService.OracleOutcome.response a) s dc d v =
          ScoringServiceV2.calculateBasicScore s d v := by
        simp only [ScoringServiceV2.calculateO1AScore,
          AiAnalysisService.analyzeO1AApplication, ho]
      rw [this]
      exact basicScore_in_range s d v n hcap hne hw1 hw2 hw3 hw4 hw5
    · have hred : ScoringServiceV2.calculateO1AScore
          (AiAnalysisService.OracleOutcome.response a) s dc d v =
          ScoringServiceV2.o1aSuccessResult a d v := by
        simp only [ScoringServiceV2.calculateO1AScore,
          AiAnalysisService.analyzeO1AApplication, ho]
      rw [hred]
      simp only [ScoringServiceV2.o1aSuccessResult, if_pos hne]
      constructor
      · exact jsRoundQ_nonneg (le_min hov' hcap0)
      · rw [hcap]
        apply le_trans (jsRoundQ_le_intCast
          (le_trans (min_le_right _ _) (by push_cast; exact le_refl _)))
        push_cast
        exact le_refl _

/-- **C1** (corrected).  For every applicant profile and every valid
`VisaTypeDefinition` (weights in `[0,100]`, `maxScoreCap` an integer in
`[0,100]`), the final score lies in `[0, maxScoreCap]`:
unconditionally on the V1 path (`calculateScore`), and on the two V2 paths
(`calculateBasicScore`, `calculateO1AScore`) provided `maxScoreCap ≠ 0` —
a zero cap is falsy in JavaScript, so the V2 paths skip the capping step —
and, on the oracle path, provided the oracle's `overallScore` is
non-negative (it is an untrusted input that becomes the final score). -/
theorem claim_C1_finalScore_range
    (profile : ScoringService.UserProfile) (visaType : VisaType)
    (summary dc : String) (docs : List DocumentParsingService.ParsedDocument)
    (oc : AiAnalysisService.OracleOutcome) (n : ℕ)
    (hcap : visaType.maxScoreCap = (n : ℚ)) (hn : n ≤ 100)
    (hw1 : 0 ≤ visaType.scoringWeights.experience)
    (hw2 : 0 ≤ visaType.scoringWeights.education)
    (hw3 : 0 ≤ visaType.scoringWeights.specialization)
    (hw4 : 0 ≤ visaType.scoringWeights.language)
    (hw5 : 0 ≤ visaType.scoringWeights.documentQuality)
    (hw1' : visaType.scoringWeights.experience ≤ 100)
    (hw2' : visaType.scoringWeights.education ≤ 100)
    (hw3' : visaType.scoringWeights.specialization ≤ 100)
    (hw4' : visaType.scoringWeights.language ≤ 100)
    (hw5' : visaType.scoringWeights.documentQuality ≤ 100)
    (hov : ∀ b, oc = AiAnalysisService.OracleOutcome.response b →
      0 ≤ b.overallScore) :
    (0 ≤ (ScoringService.calculateScore profile visaType).score ∧
      (ScoringService.calculateScore profile visaType).score ≤
        visaType.maxScoreCap) ∧
    (visaType.maxScoreCap ≠ 0 →
      0 ≤ (ScoringServiceV2.calculateBasicScore summary docs visaType).score ∧
      (ScoringServiceV2.calculateBasicScore summary docs visaType).score ≤
        visaType.maxScoreCap) ∧
    (visaType.maxScoreCap ≠ 0 →
      0 ≤ (ScoringServiceV2.calculateO1AScore oc summary dc docs
        visaType).score ∧
      (ScoringServiceV2.calculateO1AScore oc summary dc docs
        visaType).score ≤ visaType.maxScoreCap) :=
  ⟨v1Score_in_range profile visaType n hcap hw1 hw2 hw3 hw4 hw5,
   fun hne => basicScore_in_range summary docs visaType n hcap hne
     hw1 hw2 hw3 hw4 hw5,
   fun hne => o1aScore_in_range oc summary dc docs visaType n hcap hne hov
     hw1 hw2 hw3 hw4 hw5⟩

/-- **C1** counterexample to the claim as stated: with the valid visa
definition `visaCapZero` (every weight in `[0,100]`, `maxScoreCap = 0`),
the V2 basic path reports score 40, which exceeds the cap. -/
theorem claim_C1_counterexample :
    (ScoringServiceV2.calculateBasicScore "" [] visaCapZero).score = 40 ∧
    visaCapZero.maxScoreCap = 0 ∧
    ¬ (ScoringServiceV2.calculateBasicScore "" [] visaCapZero).score ≤
      visaCapZero.maxScoreCap := by
  refine ⟨?_, rfl, ?_⟩ <;>
  norm_num +decide [ScoringServiceV2.calculateBasicScore,
    ScoringServiceV2.basicCappedScore, ScoringServiceV2.basicWeightedScore,
    ScoringServiceV2.basicBreakdown, visaCapZero, strLower, strContains,
    ScoringServiceV2.findYearMatch, ScoringServiceV2.matchYearAt,
    ScoringServiceV2.findCefr, ScoringServiceV2.calculateExperienceFromAI,
    ScoringServiceV2.calculateEducationFromAI, ScoringServiceV2.eduLevelScoreAI,
    ScoringServiceV2.calculateSpecializationScore,
    ScoringServiceV2.calculateLanguageScore, cefrIndex, jsRoundQ, jsRound,
    Rat.floor_def', List.find?]

/-- Witness for `claim_C1_finalScore_range` at the spec's example visa,
profile, and a concrete oracle payload. -/
theorem claim_C1_witness :
    (0 ≤ (ScoringService.calculateScore sampleProfile sampleVisa).score ∧
      (ScoringService.calculateScore sampleProfile sampleVisa).score ≤
        sampleVisa.maxScoreCap) ∧
    (0 ≤ (ScoringServiceV2.calculateBasicScore "5 years of technology"
        [] sampleVisa).score ∧
      (ScoringServiceV2.calculateBasicScore "5 years of technology"
        [] sampleVisa).score ≤ sampleVisa.maxScoreCap) ∧
    (0 ≤ (ScoringServiceV2.calculateO1AScore
        (.response sampleAnalysis) "5 years of technology" "" []
        sampleVisa).score ∧
      (ScoringServiceV2.calculateO1AScore
        (.response sampleAnalysis) "5 years of technology" "" []
        sampleVisa).score ≤ sampleVisa.maxScoreCap) := by
  have h := claim_C1_finalScore_range sampleProfile sampleVisa
    "5 years of technology" "" [] (.response sampleAnalysis) 85
    (by norm_num [sampleVisa]) (by norm_num)
    (by norm_num [sampleVisa]) (by norm_num [sampleVisa])
    (by norm_num [sampleVisa]) (by norm_num [sampleVisa])
    (by norm_num [sampleVisa]) (by norm_num [sampleVisa])
    (by norm_num [sampleVisa]) (by norm_num [sampleVisa])
    (by norm_num [sampleVisa]) (by norm_num [sampleVisa])
    (by intro b hb; cases hb; norm_num [sampleAnalysis])
  exact ⟨h.1, h.2.1 (by norm_num [sampleVisa]), h.2.2 (by norm_num [sampleVisa])⟩

theorem jsRoundQ_min_natCast (q : ℚ) (n : ℕ) :
    jsRoundQ (min q (n : ℚ)) = min (jsRoundQ q) (n : ℚ) := by
  have h := jsRoundQ_min_intCast q (n : ℤ)
  push_cast at h
  exact h

/-- **C2** (corrected).  The V1 path and the V2 basic path (when
`maxScoreCap ≠ 0`) report `min(round(Σ dimensionScore·weight/100), cap)`.
The oracle-backed path does NOT derive its final score from its
per-criterion breakdown: it reports the oracle's `overallScore` directly
(capped when `maxScoreCap ≠ 0`, then rounded). -/
theorem claim_C2_weighting
    (profile : ScoringService.UserProfile) (visaType : VisaType)
    (summary dc : String) (docs : List DocumentParsingService.ParsedDocument)
    (a : AiAnalysisService.AIProfileAnalysis)
    (cs : List AiAnalysisService.O1ACriteriaAnalysis)
    (n : ℕ) (hcap : visaType.maxScoreCap = (n : ℚ))
    (ha : a.o1aCriteria = some cs) :
    ((ScoringService.calculateScore profile visaType).score =
      min (jsRoundQ
        ((ScoringService.calculateScore profile visaType).scoreBreakdown.experience
            / 100 * visaType.scoringWeights.experience
          + (ScoringService.calculateScore profile visaType).scoreBreakdown.education
            / 100 * visaType.scoringWeights.education
          + (ScoringService.calculateScore profile visaType).scoreBreakdown.specialization
            / 100 * visaType.scoringWeights.specialization
          + (ScoringService.calculateScore profile visaType).scoreBreakdown.language
            / 100 * visaType.scoringWeights.language
          + (ScoringService.calculateScore profile visaType).scoreBreakdown.documentQuality
            / 100 * visaType.scoringWeights.documentQuality))
        visaType.maxScoreCap) ∧
    (visaType.maxScoreCap ≠ 0 →
      (ScoringServiceV2.calculateBasicScore summary docs visaType).score =
        min (jsRoundQ
          ((ScoringServiceV2.calculateBasicScore summary docs visaType).scoreBreakdown.experience
              * visaType.scoringWeights.experience / 100
            + (ScoringServiceV2.calculateBasicScore summary docs visaType).scoreBreakdown.education
              * visaType.scoringWeights.education / 100
            + (ScoringServiceV2.calculateBasicScore summary docs visaType).scoreBreakdown.specialization
              * visaType.scoringWeights.specialization / 100
            + (ScoringServiceV2.calculateBasicScore summary docs visaType).scoreBreakdown.language
              * visaType.scoringWeights.language / 100
            + (ScoringServiceV2.calculateBasicScore summary docs visaType).scoreBreakdown.documentQuality
              * visaType.scoringWeights.documentQuality / 100))
          visaType.maxScoreCap) ∧
    (visaType.maxScoreCap ≠ 0 →
      (ScoringServiceV2.calculateO1AScore (.response a) summary dc docs
          visaType).score =
        jsRoundQ (min a.overallScore visaType.maxScoreCap)) := by
  refine ⟨?_, fun hne => ?_, fun hne => ?_⟩
  · simp only [ScoringService.calculateScore]
    rw [hcap]
    exact jsRoundQ_min_natCast _ n
  · simp only [ScoringServiceV2.calculateBasicScore,
      ScoringServiceV2.basicCappedScore, ScoringServiceV2.basicWeightedScore,
      if_pos hne]
    rw [hcap]
    exact jsRoundQ_min_natCast _ n
  · simp only [ScoringServiceV2.calculateO1AScore,
      AiAnalysisService.analyzeO1AApplication, ha,
      ScoringServiceV2.o1aSuccessResult, if_pos hne]

/-- **C2** counterexample to the claim as stated: a structurally accepted
oracle payload with `overallScore = 10` whose per-criterion breakdown
weighs (rounded, capped) to 100; the oracle path reports 10, not the
weighted combination. -/
theorem claim_C2_counterexample :
    (ScoringServiceV2.calculateO1AScore (.response analysisOverallTen)
      "" "" [] visaO1A).score = 10 ∧
    min (jsRoundQ
      ((ScoringServiceV2.calculateO1AScore (.response analysisOverallTen)
          "" "" [] visaO1A).scoreBreakdown.experience
          * visaO1A.scoringWeights.experience / 100
        + (ScoringServiceV2.calculateO1AScore (.response analysisOverallTen)
          "" "" [] visaO1A).scoreBreakdown.education
          * visaO1A.scoringWeights.education / 100
        + (ScoringServiceV2.calculateO1AScore (.response analysisOverallTen)
          "" "" [] visaO1A).scoreBreakdown.specialization
          * visaO1A.scoringWeights.specialization / 100
        + (ScoringServiceV2.calculateO1AScore (.response analysisOverallTen)
          "" "" [] visaO1A).scoreBreakdown.language
          * visaO1A.scoringWeights.language / 100
        + (ScoringServiceV2.calculateO1AScore (.response analysisOverallTen)
          "" "" [] visaO1A).scoreBreakdown.documentQuality
          * visaO1A.scoringWeights.documentQuality / 100))
      visaO1A.maxScoreCap = 100 ∧
    (10 : ℚ) ≠ 100 := by
  refine ⟨?_, ?_, by norm_num⟩ <;>
  norm_num +decide [ScoringServiceV2.calculateO1AScore,
    AiAnalysisService.analyzeO1AApplication, ScoringServiceV2.o1aSuccessResult,
    analysisOverallTen, visaO1A, strLower, strContains,
    ScoringServiceV2.calculateExperienceFromAI,
    ScoringServiceV2.calculateEducationFromAI, ScoringServiceV2.eduLevelScoreAI,
    ScoringServiceV2.calculateSpecializationScore,
    ScoringServiceV2.calculateLanguageScore,
    ScoringServiceV2.calculateDocumentQualityFromAI, cefrIndex, jsRoundQ,
    jsRound, Rat.floor_def']

/-- Witness for `claim_C2_weighting` at concrete inputs. -/
theorem claim_C2_witness :
    (ScoringServiceV2.calculateBasicScore "5 years of technology" []
        sampleVisa).score =
      min (jsRoundQ
        ((ScoringServiceV2.calculateBasicScore "5 years of technology" []
            sampleVisa).scoreBreakdown.experience
            * sampleVisa.scoringWeights.experience / 100
          + (ScoringServiceV2.calculateBasicScore "5 years of technology" []
            sampleVisa).scoreBreakdown.education
            * sampleVisa.scoringWeights.education / 100
          + (ScoringServiceV2.calculateBasicScore "5 years of technology" []
            sampleVisa).scoreBreakdown.specialization
            * sampleVisa.scoringWeights.specialization / 100
          + (ScoringServiceV2.calculateBasicScore "5 years of technology" []
            sampleVisa).scoreBreakdown.language
            * sampleVisa.scoringWeights.language / 100
          + (ScoringServiceV2.calculateBasicScore "5 years of technology" []
            sampleVisa).scoreBreakdown.documentQuality
            * sampleVisa.scoringWeights.documentQuality / 100))
        sampleVisa.maxScoreCap ∧
    (ScoringServiceV2.calculateO1AScore (.response sampleAnalysis)
        "5 years of technology" "" [] sampleVisa).score =
      jsRoundQ (min sampleAnalysis.overallScore sampleVisa.maxScoreCap) := by
  have h := claim_C2_weighting sampleProfile sampleVisa
    "5 years of technology" "" [] sampleAnalysis [] 85
    (by norm_num [sampleVisa]) (by norm_num [sampleAnalysis])
  exact ⟨h.2.1 (by norm_num [sampleVisa]), h.2.2 (by norm_num [sampleVisa])⟩

/-- **C3** (corrected).  Only the V1 path assigns the category as a
function of the reported (capped, rounded) final score, with boundaries
39/40, 59/60, 74/75.  The V2 basic path applies the same thresholds to the
UNROUNDED capped score — so a reported 75 can carry `moderate_fit` — and
the oracle path derives the category from the oracle's
`approvalLikelihood` string, not from any score. -/
theorem claim_C3_category
    (profile : ScoringService.UserProfile) (visaType : VisaType)
    (summary dc : String) (docs : List DocumentParsingService.ParsedDocument)
    (a : AiAnalysisService.AIProfileAnalysis)
    (cs : List AiAnalysisService.O1ACriteriaAnalysis)
    (ha : a.o1aCriteria = some cs) :
    ((ScoringService.calculateScore profile visaType).scoreCategory =
      ScoringService.determineScoreCategory
        ((ScoringService.calculateScore profile visaType).score)) ∧
    (ScoringService.determineScoreCategory 39 = Category.not_recommended ∧
      ScoringService.determineScoreCategory 40 = Category.consider_alternatives ∧
      ScoringService.determineScoreCategory 59 = Category.consider_alternatives ∧
      ScoringService.determineScoreCategory 60 = Category.moderate_fit ∧
      ScoringService.determineScoreCategory 74 = Category.moderate_fit ∧
      ScoringService.determineScoreCategory 75 = Category.strong_candidate) ∧
    ((ScoringServiceV2.calculateBasicScore summary docs visaType).scoreCategory =
      ScoringService.determineScoreCategory
        (ScoringServiceV2.basicCappedScore summary docs visaType)) ∧
    ((ScoringServiceV2.calculateO1AScore (.response a) summary dc docs
        visaType).scoreCategory =
      ScoringServiceV2.o1aCategory a.approvalLikelihood) := by
  refine ⟨rfl, ?_, rfl, ?_⟩
  · refine ⟨?_, ?_, ?_, ?_, ?_, ?_⟩ <;>
      norm_num [ScoringService.determineScoreCategory]
  · simp only [ScoringServiceV2.calculateO1AScore,
      AiAnalysisService.analyzeO1AApplication, ha,
      ScoringServiceV2.o1aSuccessResult]

/-- **C3** counterexample to the claim as stated: on the V2 basic path the
summary `"c1"` against `visaBoundary` yields an unrounded capped score of
74.6, so the evaluation reports final score 75 with category
`moderate_fit`, while the claim requires 75 → `strong_candidate`. -/
theorem claim_C3_counterexample :
    (ScoringServiceV2.calculateBasicScore "c1" [] visaBoundary).score = 75 ∧
    (ScoringServiceV2.calculateBasicScore "c1" [] visaBoundary).scoreCategory =
      Category.moderate_fit ∧
    ScoringService.determineScoreCategory 75 = Category.strong_candidate := by
  refine ⟨?_, ?_, by norm_num [ScoringService.determineScoreCategory]⟩ <;>
  norm_num +decide [ScoringServiceV2.calculateBasicScore,
    ScoringServiceV2.basicCappedScore, ScoringServiceV2.basicWeightedScore,
    ScoringServiceV2.basicBreakdown, visaBoundary, strLower, strContains,
    ScoringServiceV2.findYearMatch, ScoringServiceV2.matchYearAt,
    ScoringServiceV2.findCefr, ScoringServiceV2.calculateExperienceFromAI,
    ScoringServiceV2.calculateEducationFromAI, ScoringServiceV2.eduLevelScoreAI,
    ScoringServiceV2.calculateSpecializationScore,
    ScoringServiceV2.calculateLanguageScore, cefrIndex, jsRoundQ, jsRound,
    Rat.floor_def', List.find?]

/-- Witness for `claim_C3_category` at concrete inputs. -/
theorem claim_C3_witness :
    (ScoringServiceV2.calculateO1AScore (.response sampleAnalysis)
        "5 years of technology" "" [] sampleVisa).scoreCategory =
      ScoringServiceV2.o1aCategory sampleAnalysis.approvalLikelihood :=
  (claim_C3_category sampleProfile sampleVisa "5 years of technology" "" []
    sampleAnalysis [] (by norm_num [sampleAnalysis])).2.2.2

/-- **C4** (corrected).  The V1 deterministic experience scorer uses
`round((years/minRequired) * 50)` below the minimum (not `* 40` as
claimed), `round(50 + min(yearsAboveMin,10)/10 * 50)` at or above it,
giving exactly 50 at the minimum and exactly 100 from minimum+10 on.  The
claim's `* 40` formula belongs to the V2 helper `calculateExperienceFromAI`
only in its far-below-minimum branch; that helper is a step function that
yields 70 (not 50) at the minimum and caps at 90 (not 100). -/
theorem claim_C4_experience
    (years minRequired : ℚ) :
    (years < minRequired →
      ScoringService.calculateExperienceScore years minRequired =
        jsRoundQ (years / minRequired * 50)) ∧
    ScoringService.calculateExperienceScore minRequired minRequired = 50 ∧
    (minRequired + 10 ≤ years →
      ScoringService.calculateExperienceScore years minRequired = 100) ∧
    (minRequired ≤ years → years < minRequired + 10 →
      ScoringService.calculateExperienceScore years minRequired =
        jsRoundQ (50 + (years - minRequired) / 10 * 50)) ∧
    ScoringServiceV2.calculateExperienceFromAI minRequired minRequired = 70 ∧
    (minRequired + 5 ≤ years →
      ScoringServiceV2.calculateExperienceFromAI years minRequired = 90) := by
  refine ⟨fun h => ?_, ?_, fun h => ?_, fun h1 h2 => ?_, ?_, fun h => ?_⟩
  · simp only [ScoringService.calculateExperienceScore, if_pos h]
  · simp only [ScoringService.calculateExperienceScore]
    rw [if_neg (lt_irrefl _), if_neg (by linarith)]
    have : (50 : ℚ) + (minRequired - minRequired) / 10 * 50 = ((50 : ℤ) : ℚ) := by
      push_cast
      ring
    rw [this, jsRoundQ_intCast]
    norm_num
  · simp only [ScoringService.calculateExperienceScore,
      if_neg (not_lt.mpr (by linarith : minRequired ≤ years)), if_pos h]
  · simp only [ScoringService.calculateExperienceScore,
      if_neg (not_lt.mpr h1), if_neg (not_le.mpr h2)]
  · simp only [ScoringServiceV2.calculateExperienceFromAI]
    rw [if_neg (by linarith), if_neg (by linarith), if_pos (le_refl _)]
  · simp only [ScoringServiceV2.calculateExperienceFromAI, if_pos h]

/-- **C4** counterexample to the claim as stated: at `years = 1`,
`minRequired = 2` the V1 scorer returns 25 = round(1/2·50), not the
claimed round(1/2·40) = 20; and at `years = minRequired = 5` the V2
helper returns 70, not the claimed 50. -/
theorem claim_C4_counterexample :
    ScoringService.calculateExperienceScore 1 2 = 25 ∧
    jsRoundQ ((1 : ℚ) / 2 * 40) = 20 ∧
    ScoringService.calculateExperienceScore 1 2 ≠ jsRoundQ ((1 : ℚ) / 2 * 40) ∧
    ScoringServiceV2.calculateExperienceFromAI 5 5 = 70 ∧
    ScoringServiceV2.calculateExperienceFromAI 5 5 ≠ 50 := by
  refine ⟨?_, ?_, ?_, ?_, ?_⟩ <;>
  norm_num [ScoringService.calculateExperienceScore,
    ScoringServiceV2.calculateExperienceFromAI, jsRoundQ, jsRound,
    Rat.floor_def']

/-- Witness for `claim_C4_experience` at concrete inputs. -/
theorem claim_C4_witness :
    ScoringService.calculateExperienceScore 1 2 = jsRoundQ ((1 : ℚ) / 2 * 50) ∧
    ScoringService.calculateExperienceScore 5 5 = 50 ∧
    ScoringService.calculateExperienceScore 15 5 = 100 ∧
    ScoringService.calculateExperienceScore 7 5 =
      jsRoundQ (50 + ((7 : ℚ) - 5) / 10 * 50) ∧
    ScoringServiceV2.calculateExperienceFromAI 5 5 = 70 ∧
    ScoringServiceV2.calculateExperienceFromAI 12 5 = 90 := by
  refine ⟨(claim_C4_experience 1 2).1 (by norm_num),
    (claim_C4_experience 5 5).2.1,
    (claim_C4_experience 15 5).2.2.1 (by norm_num),
    (claim_C4_experience 7 5).2.2.2.1 (by norm_num) (by norm_num),
    (claim_C4_experience 5 5).2.2.2.2.1,
    (claim_C4_experience 12 5).2.2.2.2.2 (by norm_num)⟩

/-- **C5** (corrected).  A thrown/timed-out oracle call, or a response
whose `o1aCriteria` field is missing (not an array), falls back to the
deterministic `calculateBasicScore` and the evaluation still completes
(the embedding is a total function); the oracle is consulted exactly once
— the pipeline's result depends only on the first call's outcome.
However, the code does NOT validate that every criterion assessment is
present: a response whose criteria array is empty (all eight assessments
missing) is accepted and used without fallback. -/
theorem claim_C5_oracle_fallback
    (oracle oracle2 : ℕ → AiAnalysisService.OracleOutcome)
    (s dc m : String) (d : List DocumentParsingService.ParsedDocument)
    (v : VisaType) (a : AiAnalysisService.AIProfileAnalysis) :
    (ScoringServiceV2.calculateO1AScore (.failure m) s dc d v =
      ScoringServiceV2.calculateBasicScore s d v) ∧
    (a.o1aCriteria = none →
      ScoringServiceV2.calculateO1AScore (.response a) s dc d v =
        ScoringServiceV2.calculateBasicScore s d v) ∧
    (oracle 0 = oracle2 0 →
      ScoringServiceV2.calculateScoreWithAI oracle s d v =
        ScoringServiceV2.calculateScoreWithAI oracle2 s d v) := by
  refine ⟨rfl, fun h => ?_, fun h => ?_⟩
  · simp only [ScoringServiceV2.calculateO1AScore,
      AiAnalysisService.analyzeO1AApplication, h]
  · simp only [ScoringServiceV2.calculateScoreWithAI, h]

/-- **C5** counterexample to the claim as stated: `analysisNoCriteria`
carries an EMPTY criteria array — every required criterion assessment is
missing — yet the evaluator accepts it (score 97 from the oracle's
`overallScore`) instead of falling back to the deterministic path
(score 37). -/
theorem claim_C5_counterexample :
    analysisNoCriteria.o1aCriteria = some [] ∧
    (ScoringServiceV2.calculateO1AScore (.response analysisNoCriteria)
      "" "" [] visaO1AFallback).score = 97 ∧
    (ScoringServiceV2.calculateBasicScore "" [] visaO1AFallback).score = 37 ∧
    ScoringServiceV2.calculateO1AScore (.response analysisNoCriteria)
        "" "" [] visaO1AFallback ≠
      ScoringServiceV2.calculateBasicScore "" [] visaO1AFallback := by
  have h97 : (ScoringServiceV2.calculateO1AScore (.response analysisNoCriteria)
      "" "" [] visaO1AFallback).score = 97 := by
    norm_num +decide [ScoringServiceV2.calculateO1AScore,
      AiAnalysisService.analyzeO1AApplication,
      ScoringServiceV2.o1aSuccessResult, analysisNoCriteria, visaO1AFallback,
      jsRoundQ, jsRound, Rat.floor_def']
  have h37 : (ScoringServiceV2.calculateBasicScore "" []
      visaO1AFallback).score = 37 := by
    norm_num +decide [ScoringServiceV2.calculateBasicScore,
      ScoringServiceV2.basicCappedScore, ScoringServiceV2.basicWeightedScore,
      ScoringServiceV2.basicBreakdown, visaO1AFallback, strLower, strContains,
      ScoringServiceV2.findYearMatch, ScoringServiceV2.matchYearAt,
      ScoringServiceV2.findCefr, ScoringServiceV2.calculateExperienceFromAI,
      ScoringServiceV2.calculateEducationFromAI,
      ScoringServiceV2.eduLevelScoreAI,
      ScoringServiceV2.calculateSpecializationScore,
      ScoringServiceV2.calculateLanguageScore, cefrIndex, jsRoundQ, jsRound,
      Rat.floor_def', List.find?]
  refine ⟨rfl, h97, h37, fun heq => ?_⟩
  have := congrArg ScoringServiceV2.ScoringResult.score heq
  rw [h97, h37] at this
  norm_num at this

/-- Witness for `claim_C5_oracle_fallback` at concrete inputs. -/
theorem claim_C5_witness :
    (ScoringServiceV2.calculateO1AScore (.failure "timeout") "summary" "" []
        sampleVisa =
      ScoringServiceV2.calculateBasicScore "summary" [] sampleVisa) ∧
    (ScoringServiceV2.calculateO1AScore
        (.response { sampleAnalysis with o1aCriteria := none }) "summary" ""
        [] sampleVisa =
      ScoringServiceV2.calculateBasicScore "summary" [] sampleVisa) ∧
    (ScoringServiceV2.calculateScoreWithAI
        (fun _ => .failure "timeout") "summary" [] sampleVisa =
      ScoringServiceV2.calculateScoreWithAI
        (fun i => if i = 0 then .failure "timeout" else .response
          sampleAnalysis) "summary" [] sampleVisa) := by
  have h := claim_C5_oracle_fallback (fun _ => .failure "timeout")
    (fun i => if i = 0 then .failure "timeout" else .response sampleAnalysis)
    "summary" "" "timeout" [] sampleVisa
    { sampleAnalysis with o1aCriteria := none }
  exact ⟨h.1, h.2.1 rfl, h.2.2 (by norm_num)⟩

/-- **C6** (corrected).  V1's language scorer gives exactly 80 on equal
CEFR levels, `min(100, 80 + 5·gap)` above (bonus capped at 100) and
`max(30, 60 − 10·gap)` below (floored at 30).  The V2 scorer used by both
V2 evaluator paths gives 70 — not 80 — on equal levels, an UNCAPPED
`70 + 10·gap` above (reaching 120 for c2 against a1), and
`max(20, 60 − 15·gap)` below (floored at 20). -/
theorem claim_C6_language (p r : String) (u w : ℤ)
    (hu : cefrIndex (strLower p) = u) (hw : cefrIndex (strLower r) = w)
    (hu1 : u ≠ -1) (hw1 : w ≠ -1) :
    (u = w → ScoringService.calculateLanguageScore p r = 80) ∧
    (w < u → ScoringService.calculateLanguageScore p r =
      min 100 (80 + ((u - w : ℤ) : ℚ) * 5)) ∧
    (u < w → ScoringService.calculateLanguageScore p r =
      max 30 (60 - ((w - u : ℤ) : ℚ) * 10) ∧
      30 ≤ ScoringService.calculateLanguageScore p r) ∧
    (u = w → ScoringServiceV2.calculateLanguageScore p r = 70) ∧
    (w ≤ u → ScoringServiceV2.calculateLanguageScore p r =
      70 + ((u - w : ℤ) : ℚ) * 10) ∧
    (u < w → ScoringServiceV2.calculateLanguageScore p r =
      max 20 (60 - ((w - u : ℤ) : ℚ) * 15) ∧
      20 ≤ ScoringServiceV2.calculateLanguageScore p r) := by
  have hnot : ¬ (u = -1 ∨ w = -1) := by tauto
  refine ⟨fun h => ?_, fun h => ?_, fun h => ?_, fun h => ?_, fun h => ?_,
    fun h => ?_⟩
  · simp only [ScoringService.calculateLanguageScore, hu, hw]
    rw [if_neg hnot, if_neg (by omega), if_pos h]
  · simp only [ScoringService.calculateLanguageScore, hu, hw]
    rw [if_neg hnot, if_neg (by omega), if_neg (by omega)]
  · have heq : ScoringService.calculateLanguageScore p r =
        max 30 (60 - ((w - u : ℤ) : ℚ) * 10) := by
      simp only [ScoringService.calculateLanguageScore, hu, hw]
      rw [if_neg hnot, if_pos h]
    exact ⟨heq, by rw [heq]; exact le_max_left _ _⟩
  · simp only [ScoringServiceV2.calculateLanguageScore, hu, hw]
    rw [if_neg hnot, if_pos (le_of_eq h.symm), h]
    push_cast
    ring
  · simp only [ScoringServiceV2.calculateLanguageScore, hu, hw]
    rw [if_neg hnot, if_pos h]
  · have heq : ScoringServiceV2.calculateLanguageScore p r =
        max 20 (60 - ((w - u : ℤ) : ℚ) * 15) := by
      simp only [ScoringServiceV2.calculateLanguageScore, hu, hw]
      rw [if_neg hnot, if_neg (by omega)]
    exact ⟨heq, by rw [heq]; exact le_max_left _ _⟩

/-- **C6** counterexample to the claim as stated: the V2 language scorer
(used by both V2 evaluator paths) gives 70, not 80, on equal levels, and
gives 120 — above the claimed cap of 100 — for c2 against a1. -/
theorem claim_C6_counterexample :
    ScoringServiceV2.calculateLanguageScore "b1" "b1" = 70 ∧
    ScoringServiceV2.calculateLanguageScore "b1" "b1" ≠ 80 ∧
    ScoringServiceV2.calculateLanguageScore "c2" "a1" = 120 ∧
    ¬ ScoringServiceV2.calculateLanguageScore "c2" "a1" ≤ 100 := by
  refine ⟨?_, ?_, ?_, ?_⟩ <;>
  norm_num +decide [ScoringServiceV2.calculateLanguageScore, strLower,
    cefrIndex]

/-- Witness for `claim_C6_language` at concrete CEFR levels. -/
theorem claim_C6_witness :
    ScoringService.calculateLanguageScore "b1" "b1" = 80 ∧
    ScoringService.calculateLanguageScore "c1" "a2" =
      min 100 (80 + (((4 : ℤ) - 1 : ℤ) : ℚ) * 5) ∧
    ScoringService.calculateLanguageScore "a2" "c1" =
      max 30 (60 - (((4 : ℤ) - 1 : ℤ) : ℚ) * 10) ∧
    ScoringServiceV2.calculateLanguageScore "b1" "b1" = 70 ∧
    ScoringServiceV2.calculateLanguageScore "c1" "a2" =
      70 + (((4 : ℤ) - 1 : ℤ) : ℚ) * 10 ∧
    ScoringServiceV2.calculateLanguageScore "a2" "c1" =
      max 20 (60 - (((4 : ℤ) - 1 : ℤ) : ℚ) * 15) := by
  have h1 := claim_C6_language "b1" "b1" 2 2 (by decide) (by decide)
    (by decide) (by decide)
  have h2 := claim_C6_language "c1" "a2" 4 1 (by decide) (by decide)
    (by decide) (by decide)
  have h3 := claim_C6_language "a2" "c1" 1 4 (by decide) (by decide)
    (by decide) (by decide)
  exact ⟨h1.1 rfl, h2.2.1 (by norm_num), (h3.2.2.1 (by norm_num)).1,
    h1.2.2.2.1 rfl, h2.2.2.2.2.1 (by norm_num),
    (h3.2.2.2.2.2 (by norm_num)).1⟩

/-- **C7** (confirmed).  Document extraction is a total function: an image
extension always yields `parseSuccess = false` with the fixed OCR error,
an unknown extension yields `parseSuccess = false` with an
"Unsupported file type" error, a failing extractor for a supported
extension yields `parseSuccess = false` carrying the failure message,
every failed parse carries an error message, and parsing a list of files
produces exactly one `ParsedDocument` per file (no file aborts the run). -/
theorem claim_C7_extraction_total
    (extraction : Except String String) (fileName documentType m : String)
    (files : List DocumentParsingService.FileInput) :
    ((strLower (DocumentParsingService.extname fileName) = ".jpg" ∨
      strLower (DocumentParsingService.extname fileName) = ".jpeg" ∨
      strLower (DocumentParsingService.extname fileName) = ".png") →
      (DocumentParsingService.parseDocument extraction fileName
        documentType).parseSuccess = false ∧
      (DocumentParsingService.parseDocument extraction fileName
        documentType).error =
        some "Image file requires OCR for text extraction") ∧
    (strLower (DocumentParsingService.extname fileName) ∉
      ([".pdf", ".docx", ".doc", ".txt", ".jpg", ".jpeg", ".png"] :
        List String) →
      (DocumentParsingService.parseDocument extraction fileName
        documentType).parseSuccess = false ∧
      (DocumentParsingService.parseDocument extraction fileName
        documentType).error =
        some ("Unsupported file type: " ++
          strLower (DocumentParsingService.extname fileName))) ∧
    ((strLower (DocumentParsingService.extname fileName) = ".pdf" ∨
      strLower (DocumentParsingService.extname fileName) = ".docx" ∨
      strLower (DocumentParsingService.extname fileName) = ".doc" ∨
      strLower (DocumentParsingService.extname fileName) = ".txt") →
      extraction = .error m →
      (DocumentParsingService.parseDocument extraction fileName
        documentType).parseSuccess = false ∧
      (DocumentParsingService.parseDocument extraction fileName
        documentType).error = some m) ∧
    ((DocumentParsingService.parseDocument extraction fileName
        documentType).parseSuccess = false →
      (DocumentParsingService.parseDocument extraction fileName
        documentType).error ≠ none) ∧
    (DocumentParsingService.parseMultipleDocuments files).length =
      files.length := by
  refine ⟨fun h => ?_, fun h => ?_, fun h he => ?_, fun hfail => ?_, ?_⟩
  · rcases h with h | h | h <;>
      simp [DocumentParsingService.parseDocument, h]
  · simp only [List.mem_cons, List.not_mem_nil, not_or, or_false] at h
    obtain ⟨h1, h2, h3, h4, h5, h6, h7⟩ := h
    simp only [DocumentParsingService.parseDocument]
    rw [if_neg (by tauto), if_neg (by tauto)]
    exact ⟨rfl, rfl⟩
  · rcases h with h | h | h | h <;>
      simp [DocumentParsingService.parseDocument, h, he]
  · simp only [DocumentParsingService.parseDocument] at hfail ⊢
    split_ifs at hfail ⊢ with h1 h2
    · rcases extraction with t | msg <;> simp_all
    · simp
    · simp
  · simp [DocumentParsingService.parseMultipleDocuments]

/-- Witness for `claim_C7_extraction_total` at concrete files: an image, a
file with an unknown extension, and a PDF whose extractor throws. -/
theorem claim_C7_witness :
    ((DocumentParsingService.parseDocument (.ok "ok") "photo.jpg"
        "passport").parseSuccess = false ∧
      (DocumentParsingService.parseDocument (.ok "ok") "photo.jpg"
        "passport").error =
        some "Image file requires OCR for text extraction") ∧
    ((DocumentParsingService.parseDocument (.ok "ok") "notes.xyz"
        "other").parseSuccess = false ∧
      (DocumentParsingService.parseDocument (.ok "ok") "notes.xyz"
        "other").error = some ("Unsupported file type: " ++
          strLower (DocumentParsingService.extname "notes.xyz"))) ∧
    ((DocumentParsingService.parseDocument (.error "corrupt file") "cv.pdf"
        "cv").parseSuccess = false ∧
      (DocumentParsingService.parseDocument (.error "corrupt file") "cv.pdf"
        "cv").error = some "corrupt file") ∧
    (DocumentParsingService.parseMultipleDocuments
      [{ fileName := "photo.jpg", documentType := "passport",
         extraction := .ok "ok" }]).length = 1 := by
  refine ⟨(claim_C7_extraction_total (.ok "ok") "photo.jpg" "passport" ""
      []).1 (by decide), ?_, ?_, ?_⟩
  · exact (claim_C7_extraction_total (.ok "ok") "notes.xyz" "other" "" []).2.1
      (by decide)
  · exact (claim_C7_extraction_total (.error "corrupt file") "cv.pdf" "cv"
      "corrupt file" []).2.2.1 (by decide) rfl
  · exact (claim_C7_extraction_total (.ok "ok") "photo.jpg" "passport" ""
      [{ fileName := "photo.jpg", documentType := "passport",
         extraction := .ok "ok" }]).2.2.2.2

/-- **C8** (corrected).  With the tier conditions as each path's code
actually tests them, the ordering holds: V1 gives 100 / 75 / 50 and V2
gives 100 / 70 / 40 for its exact / partial / no-match tiers, each tier
strictly above the next.  But V1's "exact" test lowercases only the
APPLICANT's string and compares it case-sensitively against the allowed
entries, so an exact case-insensitive match against a non-lowercase
allowed entry falls through to the partial tier (see the
counterexample); V2's exact test is case-insensitive on both sides. -/
theorem claim_C8_specialization_order
    (u1 u2 u3 f1 f2 f3 : String) (specs allowed : List String)
    (hne : specs ≠ [])
    (h1 : specs.contains (strLower u1) = true)
    (h2 : specs.contains (strLower u2) = false)
    (h2p : (specs.any fun req => (jsSplitSepComma (strLower u2)).any
      fun keyword => strContains (strLower req) keyword) = true)
    (h3 : specs.contains (strLower u3) = false)
    (h3p : (specs.any fun req => (jsSplitSepComma (strLower u3)).any
      fun keyword => strContains (strLower req) keyword) = false)
    (g1 : (allowed.any fun spec => strLower f1 = strLower spec) = true)
    (g2 : (allowed.any fun spec => strLower f2 = strLower spec) = false)
    (g2p : (allowed.any fun spec =>
      strContains (strLower f2) (strLower spec)
      || strContains (strLower spec) (strLower f2)) = true)
    (g3 : (allowed.any fun spec => strLower f3 = strLower spec) = false)
    (g3p : (allowed.any fun spec =>
      strContains (strLower f3) (strLower spec)
      || strContains (strLower spec) (strLower f3)) = false) :
    (ScoringService.calculateSpecializationScore u1 (some specs) = 100 ∧
      ScoringService.calculateSpecializationScore u2 (some specs) = 75 ∧
      ScoringService.calculateSpecializationScore u3 (some specs) = 50 ∧
      ScoringService.calculateSpecializationScore u2 (some specs) <
        ScoringService.calculateSpecializationScore u1 (some specs) ∧
      ScoringService.calculateSpecializationScore u3 (some specs) <
        ScoringService.calculateSpecializationScore u2 (some specs)) ∧
    (ScoringServiceV2.calculateSpecializationScore f1 allowed = 100 ∧
      ScoringServiceV2.calculateSpecializationScore f2 allowed = 70 ∧
      ScoringServiceV2.calculateSpecializationScore f3 allowed = 40 ∧
      ScoringServiceV2.calculateSpecializationScore f2 allowed <
        ScoringServiceV2.calculateSpecializationScore f1 allowed ∧
      ScoringServiceV2.calculateSpecializationScore f3 allowed <
        ScoringServiceV2.calculateSpecializationScore f2 allowed) := by
  have hlen : ¬ specs.length = 0 := fun hl => hne (List.length_eq_zero.mp hl)
  have e1 : ScoringService.calculateSpecializationScore u1 (some specs) =
      100 := by
    simp only [ScoringService.calculateSpecializationScore]
    rw [if_neg hlen, if_pos h1]
  have e2 : ScoringService.calculateSpecializationScore u2 (some specs) =
      75 := by
    simp only [ScoringService.calculateSpecializationScore]
    rw [if_neg hlen, if_neg (by rw [h2]; exact Bool.false_ne_true), if_pos h2p]
  have e3 : ScoringService.calculateSpecializationScore u3 (some specs) =
      50 := by
    simp only [ScoringService.calculateSpecializationScore]
    rw [if_neg hlen, if_neg (by rw [h3]; exact Bool.false_ne_true), if_neg (by rw [h3p]; exact Bool.false_ne_true)]
  have f1e : ScoringServiceV2.calculateSpecializationScore f1 allowed =
      100 := by
    simp only [ScoringServiceV2.calculateSpecializationScore]
    rw [if_pos g1]
  have f2e : ScoringServiceV2.calculateSpecializationScore f2 allowed =
      70 := by
    simp only [ScoringServiceV2.calculateSpecializationScore]
    rw [if_neg (by rw [g2]; exact Bool.false_ne_true), if_pos g2p]
  have f3e : ScoringServiceV2.calculateSpecializationScore f3 allowed =
      40 := by
    simp only [ScoringServiceV2.calculateSpecializationScore]
    rw [if_neg (by rw [g3]; exact Bool.false_ne_true), if_neg (by rw [g3p]; exact Bool.false_ne_true)]
  exact ⟨⟨e1, e2, e3, by rw [e1, e2]; norm_num, by rw [e2, e3]; norm_num⟩,
    ⟨f1e, f2e, f3e, by rw [f1e, f2e]; norm_num,
      by rw [f2e, f3e]; norm_num⟩⟩

/-- **C8** counterexample to the claim as stated: `"Technology"` is an
exact case-insensitive match for the allowed set `["Technology"]`, yet the
V1 scorer gives it 75 — the same value as the partial, non-exact match
`"tech"` — because its exact test lowercases only the applicant's string.
The exact match is therefore not strictly above the partial match. -/
theorem claim_C8_counterexample :
    (["Technology"].any fun spec =>
      strLower "Technology" = strLower spec) = true ∧
    (["Technology"].any fun spec =>
      strLower "tech" = strLower spec) = false ∧
    ScoringService.calculateSpecializationScore "Technology"
      (some ["Technology"]) = 75 ∧
    ScoringService.calculateSpecializationScore "tech"
      (some ["Technology"]) = 75 ∧
    ¬ ScoringService.calculateSpecializationScore "tech"
        (some ["Technology"]) <
      ScoringService.calculateSpecializationScore "Technology"
        (some ["Technology"]) := by
  refine ⟨by decide, by decide, ?_, ?_, ?_⟩ <;>
  norm_num +decide [ScoringService.calculateSpecializationScore, strLower,
    strContains, jsSplitSepComma, splitGoTok, splitGoSep]

/-- Witness for `claim_C8_specialization_order` at concrete inputs. -/
theorem claim_C8_witness :
    (ScoringService.calculateSpecializationScore "technology"
        (some ["technology"]) = 100 ∧
      ScoringService.calculateSpecializationScore "tech gadgets"
        (some ["technology"]) = 75 ∧
      ScoringService.calculateSpecializationScore "finance"
        (some ["technology"]) = 50 ∧
      ScoringService.calculateSpecializationScore "tech gadgets"
          (some ["technology"]) <
        ScoringService.calculateSpecializationScore "technology"
          (some ["technology"]) ∧
      ScoringService.calculateSpecializationScore "finance"
          (some ["technology"]) <
        ScoringService.calculateSpecializationScore "tech gadgets"
          (some ["technology"])) ∧
    (ScoringServiceV2.calculateSpecializationScore "Technology"
        ["technology"] = 100 ∧
      ScoringServiceV2.calculateSpecializationScore "tech"
        ["technology"] = 70 ∧
      ScoringServiceV2.calculateSpecializationScore "finance"
        ["technology"] = 40 ∧
      ScoringServiceV2.calculateSpecializationScore "tech"
          ["technology"] <
        ScoringServiceV2.calculateSpecializationScore "Technology"
          ["technology"] ∧
      ScoringServiceV2.calculateSpecializationScore "finance"
          ["technology"] <
        ScoringServiceV2.calculateSpecializationScore "tech"
          ["technology"]) :=
  claim_C8_specialization_order "technology" "tech gadgets" "finance"
    "Technology" "tech" "finance" ["technology"] ["technology"]
    (by decide) (by decide) (by decide) (by decide) (by decide) (by decide)
    (by decide) (by decide) (by decide) (by decide) (by decide)

/-!  Word-count lemmas: splitting on whitespace runs and discarding empty
tokens is invariant under trimming. -/

theorem splitSep_allSep (p : Char → Bool) (t : List Char)
    (h : ∀ c ∈ t, p c = true) : splitGoSep p t = [[]] := by
  induction t with
  | nil => rfl
  | cons c rest ih =>
    rw [splitGoSep, if_pos (h c (List.mem_cons_self c rest))]
    exact ih (fun d hd => h d (List.mem_cons_of_mem c hd))

theorem filterTok_eq_filterSep (p : Char → Bool) (q : List Char → Bool)
    (hq : q [] = false) (l : List Char) :
    (splitGoTok p l []).filter q = (splitGoSep p l).filter q := by
  cases l with
  | nil => simp [splitGoTok, splitGoSep, List.filter, hq]
  | cons c rest =>
    rw [splitGoTok, splitGoSep]
    split_ifs with h
    · simp [List.filter_cons, hq]
    · rfl

theorem splitSep_dropWhile (p : Char → Bool) (l : List Char) :
    splitGoSep p (l.dropWhile p) = splitGoSep p l := by
  induction l with
  | nil => rfl
  | cons c rest ih =>
    by_cases h : p c
    · rw [List.dropWhile_cons_of_pos h, ih, splitGoSep, if_pos h]
    · rw [List.dropWhile_cons_of_neg h]

theorem filterTok_append_sep (p : Char → Bool) (q : List Char → Bool)
    (hq : q [] = false) (t : List Char) (ht : ∀ c ∈ t, p c = true) :
    ∀ l : List Char,
      (∀ acc, (splitGoTok p (l ++ t) acc).filter q =
        (splitGoTok p l acc).filter q) ∧
      (splitGoSep p (l ++ t)).filter q = (splitGoSep p l).filter q := by
  intro l
  induction l with
  | nil =>
    constructor
    · intro acc
      cases t with
      | nil => rfl
      | cons c t2 =>
        have hc : p c = true := ht c (List.mem_cons_self c t2)
        have ht2 : ∀ d ∈ t2, p d = true :=
          fun d hd => ht d (List.mem_cons_of_mem c hd)
        show (splitGoTok p (c :: t2) acc).filter q = _
        simp only [splitGoTok]
        rw [if_pos hc, splitSep_allSep p t2 ht2]
        simp [List.filter_cons, hq]
    · cases t with
      | nil => rfl
      | cons c t2 =>
        have hc : p c = true := ht c (List.mem_cons_self c t2)
        have ht2 : ∀ d ∈ t2, p d = true :=
          fun d hd => ht d (List.mem_cons_of_mem c hd)
        show (splitGoSep p (c :: t2)).filter q = _
        simp only [splitGoSep]
        rw [if_pos hc, splitSep_allSep p t2 ht2]
  | cons c l2 ih =>
    constructor
    · intro acc
      show (splitGoTok p (c :: (l2 ++ t)) acc).filter q = _
      simp only [splitGoTok]
      split_ifs with h
      · rw [List.filter_cons, List.filter_cons, ih.2]
      · exact ih.1 (c :: acc)
    · show (splitGoSep p (c :: (l2 ++ t))).filter q = _
      simp only [splitGoSep]
      split_ifs with h
      · exact ih.2
      · exact ih.1 [c]

theorem toList_mk (l : List Char) : (String.mk l).toList = l := rfl

/-- Trimming surrounding whitespace does not change the non-empty
whitespace-separated token list, hence not the word count. -/
theorem jsWordCount_trim (s : String) :
    DocumentParsingService.jsWordCount (DocumentParsingService.jsTrim s) =
      DocumentParsingService.jsWordCount s := by
  unfold DocumentParsingService.jsWordCount DocumentParsingService.jsTrim
  rw [toList_mk]
  set p := jsWhitespace
  set q : List Char → Bool := fun l => decide (0 < l.length) with hqdef
  have hq : q [] = false := rfl
  set l := s.toList
  set m := l.dropWhile p with hm
  set trimmed := (m.reverse.dropWhile p).reverse with htr
  have hdecomp : m = trimmed ++ (m.reverse.takeWhile p).reverse := by
    conv_lhs => rw [← List.reverse_reverse m,
      ← List.takeWhile_append_dropWhile (p := p) (l := m.reverse)]
    rw [List.reverse_append]
  have hsep : ∀ c ∈ (m.reverse.takeWhile p).reverse, p c = true := by
    intro c hc
    rw [List.mem_reverse] at hc
    exact List.mem_takeWhile_imp hc
  have step1 : (splitGoTok p trimmed []).filter q =
      (splitGoSep p trimmed).filter q := filterTok_eq_filterSep p q hq trimmed
  have step2 : (splitGoSep p m).filter q = (splitGoSep p trimmed).filter q := by
    conv_lhs => rw [hdecomp]
    exact (filterTok_append_sep p q hq _ hsep trimmed).2
  have step3 : splitGoSep p m = splitGoSep p l := splitSep_dropWhile p l
  have step4 : (splitGoTok p l []).filter q = (splitGoSep p l).filter q :=
    filterTok_eq_filterSep p q hq l
  rw [step1, ← step2, step3, ← step4]

/-- **C9** (corrected).  `wordCount` always equals the number of non-empty
whitespace-separated tokens of the stored `extractedText` (the code counts
tokens of the pre-trim text, which trimming does not change), and it is 0
for failed extractions of supported types and for unknown extensions —
but NOT for image files: their fixed placeholder text
`"[Image file - OCR not implemented]"` is counted, giving `wordCount = 6`
with `parseSuccess = false`. -/
theorem claim_C9_wordcount
    (extraction : Except String String) (fileName documentType m : String) :
    ((DocumentParsingService.parseDocument extraction fileName
        documentType).wordCount =
      DocumentParsingService.jsWordCount
        ((DocumentParsingService.parseDocument extraction fileName
          documentType).extractedText)) ∧
    ((strLower (DocumentParsingService.extname fileName) = ".pdf" ∨
      strLower (DocumentParsingService.extname fileName) = ".docx" ∨
      strLower (DocumentParsingService.extname fileName) = ".doc" ∨
      strLower (DocumentParsingService.extname fileName) = ".txt") →
      extraction = .error m →
      (DocumentParsingService.parseDocument extraction fileName
        documentType).wordCount = 0) ∧
    (strLower (DocumentParsingService.extname fileName) ∉
      ([".pdf", ".docx", ".doc", ".txt", ".jpg", ".jpeg", ".png"] :
        List String) →
      (DocumentParsingService.parseDocument extraction fileName
        documentType).wordCount = 0) ∧
    ((strLower (DocumentParsingService.extname fileName) = ".jpg" ∨
      strLower (DocumentParsingService.extname fileName) = ".jpeg" ∨
      strLower (DocumentParsingService.extname fileName) = ".png") →
      (DocumentParsingService.parseDocument extraction fileName
          documentType).wordCount = 6 ∧
      (DocumentParsingService.parseDocument extraction fileName
        documentType).parseSuccess = false) := by
  refine ⟨?_, fun h he => ?_, fun h => ?_, fun h => ?_⟩
  · simp only [DocumentParsingService.parseDocument]
    exact (jsWordCount_trim _).symm
  · rcases h with h | h | h | h <;>
      (simp [DocumentParsingService.parseDocument, h, he]; decide)
  · simp only [List.mem_cons, List.not_mem_nil, not_or, or_false] at h
    obtain ⟨h1, h2, h3, h4, h5, h6, h7⟩ := h
    simp only [DocumentParsingService.parseDocument]
    rw [if_neg (by tauto), if_neg (by tauto)]
    show DocumentParsingService.jsWordCount "" = 0
    decide
  · rcases h with h | h | h <;>
      (simp [DocumentParsingService.parseDocument, h]; decide)

/-- **C9** counterexample to the claim as stated: an image upload fails
extraction (`parseSuccess = false`) yet its `wordCount` is 6 (the token
count of the fixed placeholder text), not 0. -/
theorem claim_C9_counterexample :
    (DocumentParsingService.parseDocument (.ok "irrelevant") "photo.jpg"
      "passport").parseSuccess = false ∧
    (DocumentParsingService.parseDocument (.ok "irrelevant") "photo.jpg"
      "passport").wordCount = 6 ∧
    (DocumentParsingService.parseDocument (.ok "irrelevant") "photo.jpg"
      "passport").wordCount ≠ 0 := by
  decide

/-- Witness for `claim_C9_wordcount` at concrete files. -/
theorem claim_C9_witness :
    (DocumentParsingService.parseDocument (.error "boom") "cv.pdf"
      "cv").wordCount = 0 ∧
    (DocumentParsingService.parseDocument (.ok "x") "notes.xyz"
      "other").wordCount = 0 ∧
    (DocumentParsingService.parseDocument (.ok "two words") "cv.docx"
        "cv").wordCount =
      DocumentParsingService.jsWordCount
        ((DocumentParsingService.parseDocument (.ok "two words") "cv.docx"
          "cv").extractedText) ∧
    (DocumentParsingService.parseDocument (.ok "x") "scan.png"
      "id").wordCount = 6 :=
  ⟨(claim_C9_wordcount (.error "boom") "cv.pdf" "cv" "boom").2.1
      (by decide) rfl,
    (claim_C9_wordcount (.ok "x") "notes.xyz" "other" "").2.2.1 (by decide),
    (claim_C9_wordcount (.ok "two words") "cv.docx" "cv" "").1,
    ((claim_C9_wordcount (.ok "x") "scan.png" "id" "").2.2.2
      (by decide)).1⟩

/-- **C10** (confirmed).  When the allowed-specializations list is absent
(`undefined`/`null`) or empty, the V1 specialization scorer returns the
fixed default 80 for every applicant specialization. -/
theorem claim_C10_default_eighty (u : String) :
    ScoringService.calculateSpecializationScore u none = 80 ∧
    ScoringService.calculateSpecializationScore u (some []) = 80 := by
  constructor <;> simp [ScoringService.calculateSpecializationScore]
